import Mathlib

/-!
Verification of the conversation rule engine and webhook dispatch pipeline of the
whatsapp-agent repository (`app/rules_engine.py`, `app/store.py`, `app/ai_guard.py`,
`app/main.py`), against its natural-language specification.

The Python code is shallowly embedded: JSON/dict values become the inductive type
`JVal`, Python dicts become association lists with insertion-order update semantics,
functions that can raise become `Except Unit` computations, and the ambient clock
(minute of day, unix timestamp) becomes an explicit argument.  String operations
(`strip`, `lower`, `split`, `replace`, `in`, `str.format`) are re-implemented over
`List Char`, matching Python code-point semantics for the ASCII fragment exercised
by the configuration and messages of this repository.
-/

set_option maxRecDepth 100000

namespace WA

/-- A JSON-like Python value: the payloads, tenant `rules` dicts and conversation
state dicts manipulated by the code. -/
inductive JVal where
  | jstr (s : String)
  | jint (n : Int)
  | jbool (b : Bool)
  | jnull
  | jarr (l : List JVal)
  | jobj (l : List (String × JVal))

/-- A Python dict with string keys, in insertion order (Python 3.7+ dicts preserve
insertion order, and assigning to an existing key keeps its position). -/
abbrev JObj := List (String × JVal)

/-- Python truthiness (`bool(x)`), as used by `x or y` and `if x:`. -/
def JVal.truthy : JVal → Bool
  | .jstr s => !s.isEmpty
  | .jint n => n != 0
  | .jbool b => b
  | .jnull => false
  | .jarr l => !l.isEmpty
  | .jobj l => !l.isEmpty

/-- `d.get(k)` on a Python dict: `none` models Python `None`. -/
def dget (d : JObj) (k : String) : Option JVal := d.lookup k

/-- Python `x or y` where `x` came from `d.get(k)` (absent key = `None` = falsy). -/
def jOr (x : Option JVal) (y : JVal) : JVal :=
  match x with
  | some v => if v.truthy then v else y
  | none => y

/-- Truthiness of a `d.get(k)` result (`if d.get(k):`). -/
def optTruthy (x : Option JVal) : Bool :=
  match x with
  | some v => v.truthy
  | none => false

/-- `d[k] = v` on a Python dict: replace in place if the key exists, else append. -/
def aset {α : Type} : List (String × α) → String → α → List (String × α)
  | [], k, v => [(k, v)]
  | (k0, v0) :: t, k, v => if k0 = k then (k, v) :: t else (k0, v0) :: aset t k v

/-- `d.pop(k, None)` on a Python dict (our dicts have unique keys, so filtering
away the key is removal). -/
def apop {α : Type} (l : List (String × α)) (k : String) : List (String × α) :=
  l.filter (fun e => e.1 != k)

/-- Calling a `str` method (`.strip()`, `.lower()`, …) on a value: raises
`AttributeError` (modelled as `Except.error`) unless the value is a string. -/
def pyStrJ : JVal → Except Unit String
  | .jstr s => .ok s
  | _ => .error ()

/-- Calling a dict method (`.get(…)`) on a value: raises unless it is a dict. -/
def pyDictJ : JVal → Except Unit JObj
  | .jobj l => .ok l
  | _ => .error ()

/-- `d.get(k)` where `d` may not be a dict (raises on non-dicts). -/
def pyGetE (v : JVal) (k : String) : Except Unit (Option JVal) :=
  match v with
  | .jobj l => .ok (l.lookup k)
  | _ => .error ()

-- ---------------------------------------------------------------------------
-- Python string primitives over code points
-- ---------------------------------------------------------------------------

/-- The whitespace characters stripped by Python `str.strip()` (ASCII fragment). -/
def pyIsSpace (c : Char) : Bool :=
  c = ' ' || c = '\t' || c = '\n' || c = '\r' || c = '\x0b' || c = '\x0c'

/-- Python `str.strip()`. -/
def pyStrip (s : String) : String :=
  String.mk (((s.toList.dropWhile pyIsSpace).reverse.dropWhile pyIsSpace).reverse)

/-- Python `str.lower()` (ASCII; the configuration keywords compared by the engine
are ASCII-lowercased on both sides). -/
def pyLower (s : String) : String :=
  String.mk (s.toList.map Char.toLower)

/-- Python `str.upper()` (ASCII). -/
def pyUpper (s : String) : String :=
  String.mk (s.toList.map Char.toUpper)

/-- `a` is a prefix of `b` (used for substring search and `str.replace`). -/
def startsWith : List Char → List Char → Bool
  | [], _ => true
  | _ :: _, [] => false
  | a :: as, b :: bs => a = b && startsWith as bs

/-- Python `sub in s` on code-point lists. -/
def isSubList (n : List Char) : List Char → Bool
  | [] => n.isEmpty
  | c :: t => startsWith n (c :: t) || isSubList n t

/-- Python `sub in s`. -/
def pyContains (s sub : String) : Bool :=
  isSubList sub.toList s.toList

/-- `str.split(sep)` with a one-character separator (the engine only splits on
`"-"`, `":"` and `"."`); keeps empty pieces, `"".split(sep) == [""]`. -/
def splitChAux (sep : Char) (acc : List Char) : List Char → List (List Char)
  | [] => [acc.reverse]
  | c :: rest =>
    if c = sep then acc.reverse :: splitChAux sep [] rest
    else splitChAux sep (c :: acc) rest

/-- Python `s.split(sep)` for a single-character `sep`. -/
def pySplit (s : String) (sep : Char) : List String :=
  (splitChAux sep [] s.toList).map String.mk

/-- Python `sep.join(l)`. -/
def pyJoin (sep : String) : List String → String
  | [] => ""
  | [x] => x
  | x :: xs => x ++ sep ++ pyJoin sep xs

/-- One left-to-right non-overlapping pass of Python `str.replace(pat, rep)`,
with the (non-empty) pattern split into first character and rest.  The `Nat`
fuel (instantiated to the input length, an upper bound on the number of steps)
only makes the recursion structural; it is never exhausted. -/
def replaceAux (p0 : Char) (ps : List Char) (rep : List Char) : Nat → List Char → List Char
  | _, [] => []
  | 0, l => l
  | fuel + 1, c :: rest =>
    if startsWith (p0 :: ps) (c :: rest) then
      rep ++ replaceAux p0 ps rep fuel (rest.drop ps.length)
    else
      c :: replaceAux p0 ps rep fuel rest

/-- Python `s.replace(pat, rep)` (non-overlapping, left to right). -/
def pyReplace (s pat rep : String) : String :=
  match pat.toList with
  | [] => s
  | p0 :: ps => String.mk (replaceAux p0 ps rep.toList s.toList.length s.toList)

/-- Python `s.endswith(suf)`. -/
def pyEndsWith (s suf : String) : Bool :=
  startsWith suf.toList.reverse s.toList.reverse

/-- Decimal digit run to a number; `none` models `int()` raising `ValueError`
on an empty or non-digit string. -/
def digitsToNat : List Char → Option Nat
  | [] => none
  | ds =>
    if ds.all Char.isDigit then
      some (ds.foldl (fun a c => a * 10 + (c.toNat - 48)) 0)
    else none

/-- Python `int(s)` on the decimal strings used for business-hours config;
raises (`Except.error`) on anything that is not an optionally signed digit run. -/
def pyInt (s : String) : Except Unit Int :=
  match (pyStrip s).toList with
  | '+' :: ds =>
    match digitsToNat ds with
    | some n => .ok (n : Int)
    | none => .error ()
  | '-' :: ds =>
    match digitsToNat ds with
    | some n => .ok (-(n : Int))
    | none => .error ()
  | ds =>
    match digitsToNat ds with
    | some n => .ok (n : Int)
    | none => .error ()

example : pySplit "Maria Silva - 11999999999 - Dúvida" '-' =
    ["Maria Silva ", " 11999999999 ", " Dúvida"] := by decide

example : pyStrip "  oi \n" = "oi" := by decide

example : pyReplace "55@s.whatsapp.net" "@s.whatsapp.net" "" = "55" := by decide

example : pyInt "09" = .ok 9 := rfl

/-- Python `str(x)`.  For scalars this is exact; for containers (only reachable
through degenerate tenant configs that put a list/dict where menu text belongs)
an opaque marker is produced instead of the full Python repr, which no claim
depends on. -/
def pyStrOf : JVal → String
  | .jstr s => s
  | .jint n => toString n
  | .jbool b => if b then "True" else "False"
  | .jnull => "None"
  | .jarr _ => "[...]"
  | .jobj _ => "\x7b...\x7d"

/-- Python `for x in v`: lists iterate elements, dicts iterate keys, strings
iterate characters; other values raise `TypeError`. -/
def pyIter : JVal → Except Unit (List JVal)
  | .jarr l => .ok l
  | .jobj l => .ok (l.map (fun e => JVal.jstr e.1))
  | .jstr s => .ok (s.toList.map (fun c => JVal.jstr (String.mk [c])))
  | _ => .error ()

/-- Python `v == "s"`: a value equals a string literal only if it is that string
(numbers and booleans never compare equal to strings). -/
def isStr (v : JVal) (s : String) : Bool :=
  match v with
  | .jstr s2 => s2 = s
  | _ => false

/-- `d.get(k) == "s"` (`None == "s"` is false). -/
def optIsStr (x : Option JVal) (s : String) : Bool :=
  match x with
  | some v => isStr v s
  | none => false

-- ---------------------------------------------------------------------------
-- Python str.format, as used by `rules_engine._safe_format`
-- ---------------------------------------------------------------------------

/-- Characters allowed in the simple `{name}` replacement fields the engine's
templates use. -/
def isIdentChar (c : Char) : Bool :=
  c.isAlpha || c.isDigit || c = '_'

/-- Core of Python `template.format(**kwargs)` restricted to `{{`/`}}` escapes
and simple named fields:
an unmatched brace, an empty field, a field that is not a plain keyword name,
or a name missing from `kwargs` raises (`ValueError`/`IndexError`/`KeyError` in
Python, `Except.error` here); `rules_engine._safe_format` catches all of these.
The `Option (List Char)` argument accumulates the characters of a field being
read (`none` while outside a field); the `Nat` fuel (instantiated to one more
than the template length, an upper bound on the recursion depth) only makes the
recursion structural and is never exhausted. -/
def pyFmtAux (args : List (String × String)) : Nat → Option (List Char) → List Char → Except Unit (List Char)
  | _, none, [] => .ok []
  | _, some _, [] => .error ()
  | 0, _, _ => .error ()
  | fuel + 1, none, c :: rest =>
    if c = '{' then
      match rest with
      | '{' :: r2 => do
        let t ← pyFmtAux args fuel none r2
        .ok ('{' :: t)
      | _ => pyFmtAux args fuel (some []) rest
    else if c = '}' then
      match rest with
      | '}' :: r2 => do
        let t ← pyFmtAux args fuel none r2
        .ok ('}' :: t)
      | _ => .error ()
    else do
      let t ← pyFmtAux args fuel none rest
      .ok (c :: t)
  | fuel + 1, some acc, c :: rest =>
    if c = '}' then
      let fname := String.mk acc.reverse
      if acc.isEmpty || !(acc.all isIdentChar) then .error ()
      else
        match args.lookup fname with
        | some v => do
          let t ← pyFmtAux args fuel none rest
          .ok (v.toList ++ t)
        | none => .error ()
    else pyFmtAux args fuel (some (c :: acc)) rest

/-- `rules_engine._safe_format`: `template.format(**kwargs)`, degrading to the
raw template on any exception. -/
def safe_format (template : String) (kwargs : List (String × String)) : String :=
  match pyFmtAux kwargs (template.toList.length + 1) none template.toList with
  | .ok l => String.mk l
  | .error _ => template

example : safe_format "Oi {nome}!" [("nome", "Ana")] = "Oi Ana!" := by decide

example : safe_format "Oi {name}" [("nome", "Ana")] = "Oi {name}" := by decide

example : safe_format "Oi \x7b" [("nome", "Ana")] = "Oi \x7b" := by decide

-- ---------------------------------------------------------------------------
-- app/rules_engine.py
-- ---------------------------------------------------------------------------

/-- `rules_engine.get_text`: read a dotted path like `"messages.welcome"` out of
the rules JSON, returning `default` when a key is missing, a non-dict is
descended into, or the leaf is not a string. -/
def get_text_walk (dflt : String) : JVal → List String → String
  | cur, [] =>
    match cur with
    | .jstr s => s
    | _ => dflt
  | cur, p :: ps =>
    match cur with
    | .jobj l =>
      match l.lookup p with
      | some v => get_text_walk dflt v ps
      | none => dflt
    | _ => dflt

/-- `rules_engine.get_text (d, path, default)`. -/
def get_text (d : JObj) (path : String) (dflt : String) : String :=
  get_text_walk dflt (.jobj d) (pySplit path '.')

/-- Hardcoded default of `messages.welcome`. -/
def welcomeDefault : String := "Olá! Digite *menu* para ver opções."

/-- Hardcoded default of `messages.fallback`. -/
def fallbackDefault : String := "Não entendi. Digite *menu* para ver opções."

/-- Hardcoded default of `messages.off_hours`. -/
def offHoursDefault : String :=
  "Estamos fora do horário agora 🙂. Se quiser atendimento, digite *atendente*."

/-- Hardcoded default of `messages.handoff_prompt`. -/
def handoffPromptDefault : String :=
  "Perfeito! Para encaminhar para um atendente, envie:\n*Nome* - *Telefone* - *Assunto*"

/-- Hardcoded default of `messages.handoff_ok` (placeholders are `{nome}`,
`{telefone}`, `{assunto}`). -/
def handoffOkDefault : String :=
  "Obrigado, {nome}! ✅ Recebemos suas informações e um atendente vai falar com você em breve."

/-- Hardcoded default of `messages.handoff_retry`. -/
def handoffRetryDefault : String :=
  "Não consegui entender. Envie no formato:\n*Nome* - *Telefone* - *Assunto*"

/-- `open_h.split(":")` destructuring `oh, om = …`: exactly two parts or
`ValueError`. -/
def split2 (s : String) : Except Unit (String × String) :=
  match pySplit s ':' with
  | [a, b] => .ok (a, b)
  | _ => .error ()

/-- `rules_engine.in_business_hours`, with the container's local clock passed in
as `nowMin` (minute of day, `lt.tm_hour * 60 + lt.tm_min`).  Open when
`hours.mode != "business"`; otherwise open iff the minute of day lies in the
inclusive `[open, close]` window. -/
def in_business_hours (rules : JObj) (nowMin : Nat) : Except Unit Bool := do
  let hours ← pyDictJ (jOr (dget rules "hours") (.jobj []))
  let mode ← pyStrJ (jOr (dget hours "mode") (.jstr ""))
  if pyLower mode ≠ "business" then
    return true
  else do
    let openH ← pyStrJ (jOr (dget hours "open") (.jstr "08:00"))
    let closeH ← pyStrJ (jOr (dget hours "close") (.jstr "18:00"))
    let (oh, om) ← split2 openH
    let (ch, cm) ← split2 closeH
    let ohn ← pyInt oh
    let omn ← pyInt om
    let chn ← pyInt ch
    let cmn ← pyInt cm
    let openMin := ohn * 60 + omn
    let closeMin := chn * 60 + cmn
    return decide (openMin ≤ (nowMin : Int) ∧ (nowMin : Int) ≤ closeMin)

/-- The `"{k} - {label}"` lines of `rules_engine.menu_reply` built from
`menu.options` (entries need a non-empty key and label). -/
def optLines : List JVal → Except Unit (List String)
  | [] => .ok []
  | o :: rest => do
    let od ← pyDictJ o
    let k := pyStrip (pyStrOf (jOr (dget od "key") (.jstr "")))
    let label := pyStrip (pyStrOf (jOr (dget od "label") (.jstr "")))
    let restL ← optLines rest
    if k ≠ "" ∧ label ≠ "" then .ok ((k ++ " - " ++ label) :: restL)
    else .ok restL

/-- `rules_engine.menu_reply`: `ui.menu.fallback_text` wins when it is a
non-blank string; otherwise the menu is rendered from `menu.title` and
`menu.options`. -/
def menu_reply (rules : JObj) : Except Unit String := do
  let ui := jOr (dget rules "ui") (.jobj [])
  let fbText : Option String :=
    match ui with
    | .jobj uil =>
      match jOr (dget uil "menu") (.jobj []) with
      | .jobj uml =>
        match dget uml "fallback_text" with
        | some (.jstr fb) => if pyStrip fb ≠ "" then some (pyStrip fb) else none
        | _ => none
      | _ => none
    | _ => none
  match fbText with
  | some s => return s
  | none => do
    let menu ← pyDictJ (jOr (dget rules "menu") (.jobj []))
    let title := jOr (dget menu "title") (.jstr "Menu")
    let opts ← pyIter (jOr (dget menu "options") (.jarr []))
    let lines ← optLines opts
    return pyJoin "\n"
      (("*" ++ pyStrOf title ++ "*") :: lines ++
        ["\nDigite o número da opção ou *menu* para ver novamente."])

/-- The `for o in opts` loop of `rules_engine.match_menu_option`: first option
whose (stringified, stripped, lowercased) key is non-empty and equals `tl`. -/
def findOpt (tl : String) : List JVal → Except Unit (Option JObj)
  | [] => .ok none
  | o :: rest => do
    let od ← pyDictJ o
    let k := pyLower (pyStrip (pyStrOf (jOr (dget od "key") (.jstr ""))))
    if k ≠ "" ∧ tl = k then return (some od) else findOpt tl rest

/-- `rules_engine.match_menu_option`: old-style `menu.options` by key, then the
newer `menu.map` token lookup (`{"key": t, "reply": mp.get(t)}`). -/
def match_menu_option (rules : JObj) (text : String) : Except Unit (Option JObj) := do
  let menu ← pyDictJ (jOr (dget rules "menu") (.jobj []))
  let t := pyStrip text
  let opts ← pyIter (jOr (dget menu "options") (.jarr []))
  let tl := pyLower t
  match ← findOpt tl opts with
  | some o => return (some o)
  | none =>
    match dget menu "map" with
    | some (.jobj mpl) =>
      if (mpl.lookup t).isSome then
        return (some [("key", JVal.jstr t), ("reply", (mpl.lookup t).getD JVal.jnull)])
      else
        return none
    | _ => return none

/-- Lines 165–167 of `rules_engine.apply_rules`: the tenant's configured handoff
keyword, `(rules.get("handoff") or {}).get("keyword") or "atendente"`, stripped
and lowercased (raises on non-dict `handoff` or non-string keyword). -/
def handoff_keyword (rules : JObj) : Except Unit String := do
  let handoff ← pyDictJ (jOr (dget rules "handoff") (.jobj []))
  let kw ← pyStrJ (jOr (dget handoff "keyword") (.jstr "atendente"))
  return pyLower (pyStrip kw)

/-- Lines 190–218 of `rules_engine.apply_rules` (the `step == "handoff_collect"`
branch): split the stripped text on `"-"`; with at least three parts store
`lead = {"nome", "telefone", "assunto"}`, move to `"lead_captured"` and format
`messages.handoff_ok`; otherwise reply with `messages.handoff_retry` leaving the
state untouched. -/
def handoff_collect_step (t : String) (state : JObj) (rules : JObj) : Option String × JObj :=
  let parts := (pySplit t '-').map pyStrip
  match parts with
  | a :: b :: c :: rest =>
    let nome := pyStrip a
    let telefone := pyStrip b
    let assunto := pyStrip (pyJoin "-" (c :: rest))
    let state1 := aset state "lead"
      (.jobj [("nome", .jstr nome), ("telefone", .jstr telefone), ("assunto", .jstr assunto)])
    let state2 := aset state1 "step" (.jstr "lead_captured")
    let tpl := get_text rules "messages.handoff_ok" handoffOkDefault
    (some (safe_format tpl
      [("nome", if nome = "" then "🙂" else nome),
       ("telefone", if telefone = "" then "" else telefone),
       ("assunto", if assunto = "" then "" else assunto)]), state2)
  | _ =>
    (some (get_text rules "messages.handoff_retry" handoffRetryDefault), state)

/-- `rules_engine.apply_rules(number, text, state, rules)`: the per-tenant state
machine, with the container clock as explicit `nowMin`.  Returns the reply (the
Python signature is `Optional[str]`) and the updated state; `Except.error`
models an exception escaping (possible only with type-malformed rules). -/
def apply_rules (number text : String) (state : JObj) (rules : JObj) (nowMin : Nat) :
    Except Unit (Option String × JObj) := do
  let _ := number
  let t := pyStrip text
  -- Handoff keyword (exact match on the stripped, lowercased text)
  let handoff_kw ← handoff_keyword rules
  if pyLower t = handoff_kw then
    return (some (get_text rules "messages.handoff_prompt" handoffPromptDefault),
            aset state "step" (.jstr "handoff_collect"))
  -- Horário comercial
  let bh ← in_business_hours rules nowMin
  let stepOrEmpty := jOr (dget state "step") (.jstr "")
  if bh = false ∧ isStr stepOrEmpty "handoff_collect" = false ∧
      isStr stepOrEmpty "lead_captured" = false then
    return (some (get_text rules "messages.off_hours" offHoursDefault), state)
  -- Comandos
  if pyLower t = "menu" ∨ pyLower t = "voltar" then
    let m ← menu_reply rules
    return (some m, aset state "step" (.jstr "menu"))
  -- Coleta de lead para handoff
  if optIsStr (dget state "step") "handoff_collect" = true then
    return handoff_collect_step t state rules
  -- Menu option (antigo + novo map)
  let opt ← match_menu_option rules t
  match opt with
  | some o =>
    let st1 := aset state "step" (.jstr ("menu:" ++ pyStrOf ((dget o "key").getD .jnull)))
    let reply := jOr (dget o "reply") (jOr (dget o "ask") (.jstr "Ok."))
    match reply with
    | .jstr s =>
      if s = "__SHOW_MENU__" then
        let m ← menu_reply rules
        return (some m, aset st1 "step" (.jstr "menu"))
      else if s = "__HANDOFF__" then
        return (some (get_text rules "messages.handoff_prompt" handoffPromptDefault),
                aset st1 "step" (.jstr "handoff_collect"))
      else
        return (some s, st1)
    | _ => return (some (pyStrOf reply), st1)
  | none =>
    -- Default / welcome, senão fallback
    if optTruthy (dget state "step") = false then
      return (some (get_text rules "messages.welcome" welcomeDefault),
              aset state "step" (.jstr "welcome"))
    else
      return (some (get_text rules "messages.fallback" fallbackDefault), state)

example :
    apply_rules "55" "oi" [] [] 600 =
      .ok (some welcomeDefault, [("step", .jstr "welcome")]) := rfl

example :
    apply_rules "55" "Atendente " [] [] 600 =
      .ok (some handoffPromptDefault, [("step", .jstr "handoff_collect")]) := rfl

end WA

namespace WA

example :
    apply_rules "55" "Maria Silva - 11999999999 - Dúvida sobre preço"
      [("step", .jstr "handoff_collect")] [] 600 =
      .ok (some "Obrigado, Maria Silva! ✅ Recebemos suas informações e um atendente vai falar com você em breve.",
           [("step", .jstr "lead_captured"),
            ("lead", .jobj [("nome", .jstr "Maria Silva"), ("telefone", .jstr "11999999999"),
                            ("assunto", .jstr "Dúvida sobre preço")])]) := rfl

example :
    apply_rules "55" "só meu nome" [("step", .jstr "handoff_collect")] [] 600 =
      .ok (some handoffRetryDefault, [("step", .jstr "handoff_collect")]) := rfl

example :
    apply_rules "55" "oi"
      [] [("hours", .jobj [("mode", .jstr "business"), ("open", .jstr "09:00"), ("close", .jstr "18:00")])] 1200 =
      .ok (some offHoursDefault, []) := rfl

example :
    apply_rules "55" "menu" [] [] 600 =
      .ok (some "*Menu*\n\nDigite o número da opção ou *menu* para ver novamente.",
           [("step", .jstr "menu")]) := rfl

example :
    in_business_hours [("hours", .jobj [("mode", .jstr "business"), ("open", .jstr "09:00"), ("close", .jstr "18:00")])] 1200 = .ok false := rfl

-- ---------------------------------------------------------------------------
-- app/rules_engine.py: per-agent rules cache
-- ---------------------------------------------------------------------------

/-- `rules_engine._CACHE_TTL_SECONDS` (the comment in the source reads
"0 = sempre reflete mudanças (sem TTL)"). -/
def CACHE_TTL_SECONDS : Int := 0

/-- The external tenant store consulted by `load_rules_for_agent`:
`find agent_id` is the `rules_json` column of the `Agent` row, `none` when no
such agent exists. -/
structure RulesDB where
  find : String → Option JVal

/-- `(getattr(a, "rules_json", None) or {}) if a else {}`: the rules currently
in the store for an agent, with falsy/missing values defaulted to `{}`. -/
def db_rules_of (db : RulesDB) (agent_id : String) : JVal :=
  match db.find agent_id with
  | some v => if v.truthy then v else .jobj []
  | none => .jobj []

/-- `rules_engine._CACHE`: `agent_id ↦ (timestamp, rules)`. -/
abbrev RulesCache := List (String × Int × JVal)

/-- `rules_engine.load_rules_for_agent`, with the wall clock passed as `now`:
empty id short-circuits to `{}`; a cache hit is returned whenever
`_CACHE_TTL_SECONDS <= 0` or the entry is young enough; otherwise the store is
read and the cache updated. -/
def load_rules_for_agent (db : RulesDB) (cache : RulesCache) (agent_id : String) (now : Int) :
    JVal × RulesCache :=
  if agent_id = "" then (.jobj [], cache)
  else
    match cache.lookup agent_id with
    | some (ts, rules) =>
      if CACHE_TTL_SECONDS ≤ 0 || (now - ts) ≤ CACHE_TTL_SECONDS then (rules, cache)
      else
        let rules := db_rules_of db agent_id
        (rules, aset cache agent_id (now, rules))
    | none =>
      let rules := db_rules_of db agent_id
      (rules, aset cache agent_id (now, rules))

/-- `rules_engine.invalidate_agent_rules`: `_CACHE.pop(agent_id, None)`. -/
def invalidate_agent_rules (cache : RulesCache) (agent_id : String) : RulesCache :=
  apop cache agent_id

-- ---------------------------------------------------------------------------
-- app/store.py: MemoryStore
-- ---------------------------------------------------------------------------

/-- `store.MemoryStore`: process-local dedup set and per-key conversation
state. -/
structure MemStore where
  seen_ids : List String
  user_state : List (String × JObj)

/-- `MemoryStore.seen`: `False` for an empty id (never recorded); `True` for an
id already in `seen_ids`; otherwise records the id and returns `False`. -/
def MemStore.seen (st : MemStore) (message_id : String) : Bool × MemStore :=
  if message_id = "" then (false, st)
  else if message_id ∈ st.seen_ids then (true, st)
  else (false, ⟨message_id :: st.seen_ids, st.user_state⟩)

/-- `MemoryStore.get_state`: `user_state.setdefault(key, {})` — returns the
stored dict, inserting an empty one when absent. -/
def MemStore.get_state (st : MemStore) (key : String) : JObj × MemStore :=
  match st.user_state.lookup key with
  | some s => (s, st)
  | none => ([], ⟨st.seen_ids, aset st.user_state key []⟩)

-- ---------------------------------------------------------------------------
-- app/ai_guard.py
-- ---------------------------------------------------------------------------

/-- `ai_guard._norm` on an `Optional[str]`: `(s or "").strip().lower()`. -/
def aiNorm (s : Option String) : String :=
  pyLower (pyStrip (s.getD ""))

/-- `_norm(state.get("step"))` where the state value may not be a string
(raises, like Python, when a truthy non-string sits under `"step"`). -/
def normJ (x : Option JVal) : Except Unit String := do
  let s ← pyStrJ (jOr x (.jstr ""))
  return pyLower (pyStrip s)

/-- One anchor of the menu-shape regex `(^|\n)\s*\d+\s*[-\)\.]\s*`: whitespace,
then at least one digit, then whitespace, then `-`, `)` or `.`. -/
def menuShapeAt (l : List Char) : Bool :=
  let l1 := l.dropWhile pyIsSpace
  if (l1.takeWhile Char.isDigit).isEmpty then false
  else
    match (l1.dropWhile Char.isDigit).dropWhile pyIsSpace with
    | c :: _ => c = '-' || c = ')' || c = '.'
    | [] => false

/-- `re.search` of the menu-shape pattern at every position following a
newline. -/
def menuShapeAux : List Char → Bool
  | [] => false
  | c :: rest => (c = '\n' && menuShapeAt rest) || menuShapeAux rest

/-- `re.search(r"(^|\n)\s*\d+\s*[-\)\.]\s*", t)`: the anchor is the start of
the string or any newline. -/
def menuShapeSearch (l : List Char) : Bool :=
  menuShapeAt l || menuShapeAux l

/-- `ai_guard._has_menu_shape`. -/
def _has_menu_shape (text : String) : Bool :=
  let t := aiNorm (some text)
  if t = "" then false
  else if menuShapeSearch t.toList = true then true
  else if pyContains t "escolha uma opção" = true ∨ pyContains t "escolha uma opcao" = true ∨
      pyContains t "digite o número" = true ∨ pyContains t "digite o numero" = true then true
  else false

/-- The operational/flow keyword list of `ai_guard._looks_operational`. -/
def opKeywords : List String :=
  ["digite", "menu", "opção", "opcao", "clique", "escolha", "envie no formato",
   "nome - telefone - assunto", "nome-telefone-assunto", "para prosseguir",
   "para continuar", "para avançar", "para avancar", "aguarde", "encaminhar"]

/-- `ai_guard._looks_operational`: blank or short (≤ 45 code points after
normalization) or containing an operational keyword. -/
def _looks_operational (text : String) : Bool :=
  let t := aiNorm (some text)
  if t = "" then true
  else if t.length ≤ 45 then true
  else opKeywords.any fun k => pyContains t k

/-- The "lead being captured and not yet saved" gate of `ai_should_run`:
`isinstance(lead, dict) and lead and not (state or {}).get("lead_saved")`. -/
def ai_lead_gate (st : JObj) : Bool :=
  match dget st "lead" with
  | some (.jobj l) => !l.isEmpty && !(optTruthy (dget st "lead_saved"))
  | _ => false

/-- `ai_guard.ai_should_run(user_text=…, base_reply=…, state=…, paused=…)`:
the AI assist gate, returning `(allowed, reason)`. -/
def ai_should_run (user_text : String) (base_reply : Option String) (st : JObj) (paused : Bool) :
    Except Unit (Bool × String) := do
  if paused = true then return (false, "paused")
  let bt := aiNorm base_reply
  let ut := aiNorm (some user_text)
  if bt = "" then return (false, "empty_base_reply")
  if ut = "atendente" ∨ pyContains ut "atendente" = true then
    return (false, "user_requested_handoff")
  let step ← normJ (dget st "step")
  if step = "handoff_collect" ∨ step = "lead_captured" then
    return (false, "handoff_step:" ++ step)
  if ai_lead_gate st = true then return (false, "lead_capturing")
  if _has_menu_shape bt = true then return (false, "menu_shape_in_base_reply")
  if _looks_operational bt = true then return (false, "operational_base_reply")
  return (true, "ok")

example :
    ai_should_run "oi" (some "1 - Vendas\n2 - Suporte") [] false =
      .ok (false, "menu_shape_in_base_reply") := rfl

example :
    ai_should_run "oi" (some "Tudo bem por aí hoje?") [] false =
      .ok (false, "operational_base_reply") := rfl

-- ---------------------------------------------------------------------------
-- app/main.py: payload normalization
-- ---------------------------------------------------------------------------

/-- The `msg.get("conversation")` branch of `main.extract_text`. -/
def convText (m : JObj) : Option JVal :=
  if optTruthy (dget m "conversation") then some (jOr (dget m "conversation") (.jstr ""))
  else none

/-- The `extendedTextMessage` branch of `main.extract_text`. -/
def etmText (m : JObj) : Option JVal :=
  match jOr (dget m "extendedTextMessage") (.jobj []) with
  | .jobj l =>
    if optTruthy (dget l "text") then some (jOr (dget l "text") (.jstr "")) else none
  | _ => none

/-- The `buttonsResponseMessage` branch of `main.extract_text`. -/
def brmText (m : JObj) : Option JVal :=
  match jOr (dget m "buttonsResponseMessage") (.jobj []) with
  | .jobj l =>
    if optTruthy (dget l "selectedDisplayText") then
      some (jOr (dget l "selectedDisplayText") (.jstr ""))
    else if optTruthy (dget l "selectedButtonId") then
      some (jOr (dget l "selectedButtonId") (.jstr ""))
    else none
  | _ => none

/-- The `listResponseMessage` branch of `main.extract_text` (selected row id,
then list title). -/
def lrmText (m : JObj) : Option JVal :=
  match jOr (dget m "listResponseMessage") (.jobj []) with
  | .jobj l =>
    match jOr (dget l "singleSelectReply") (.jobj []) with
    | .jobj ssr =>
      if optTruthy (dget ssr "selectedRowId") then
        some (jOr (dget ssr "selectedRowId") (.jstr ""))
      else if optTruthy (dget l "title") then some (jOr (dget l "title") (.jstr ""))
      else none
    | _ =>
      if optTruthy (dget l "title") then some (jOr (dget l "title") (.jstr "")) else none
  | _ => none

/-- One media-caption probe of `main.extract_text`. -/
def mediaText1 (m : JObj) (k : String) : Option JVal :=
  match jOr (dget m k) (.jobj []) with
  | .jobj l =>
    if optTruthy (dget l "caption") then some (jOr (dget l "caption") (.jstr "")) else none
  | _ => none

/-- The `for k in ("imageMessage", "videoMessage", "documentMessage")` loop of
`main.extract_text`. -/
def mediaText (m : JObj) : Option JVal :=
  mediaText1 m "imageMessage" <|> mediaText1 m "videoMessage" <|> mediaText1 m "documentMessage"

/-- `main.extract_text`: first matching text shape, `""` when none matches or
the message is not a dict.  (The value returned can be a non-string when the
payload stores one under a text key; the caller's `.strip()` then raises.) -/
def extract_text : JVal → JVal
  | .jobj m =>
    (convText m <|> etmText m <|> brmText m <|> lrmText m <|> mediaText m).getD (.jstr "")
  | _ => .jstr ""

/-- The canonical inbound-message record produced by `main.extract_payload`
(the 8-tuple `instance, message_id, from_number, text, from_me, is_group,
event, status`). -/
structure Payload where
  inst : String
  message_id : String
  from_number : String
  text : String
  from_me : Bool
  is_group : Bool
  event : String
  status : String

/-- Lazy Python `x or y` where evaluating `y` itself may raise. -/
def jOrE (x : Option JVal) (y : Except Unit JVal) : Except Unit JVal :=
  match x with
  | some v => if v.truthy then .ok v else y
  | none => y

/-- `main.extract_payload`: normalize an Evolution-style webhook payload.
Raises (`Except.error`) exactly where Python would: `.get` on a non-dict
payload, `.strip()`/`.lower()`/`.upper()` on a truthy non-string field. -/
def extract_payload (payload : JVal) : Except Unit Payload := do
  let i1 ← pyGetE payload "instance"
  let instV ← jOrE i1 (do
    let i2 ← pyGetE payload "instanceId"
    jOrE i2 (pure (.jstr "")))
  let instS := pyStrip (← pyStrJ instV)
  -- d = payload.get("data") or payload
  let dv := jOr (← pyGetE payload "data") payload
  -- data["messages"][0] variant
  let d :=
    match dv with
    | .jobj dl =>
      match dget dl "messages" with
      | some (.jarr (m0 :: _)) =>
        let d0 := if m0.truthy = true then m0 else .jobj []
        match d0 with
        | .jobj _ => d0
        | _ => dv
      | _ => dv
    | _ => dv
  -- key = (d.get("key") or {}) if isinstance(d, dict) else {}
  let key : JVal :=
    match d with
    | .jobj dl => jOr (dget dl "key") (.jobj [])
    | _ => .jobj []
  -- message_id = (key.get("id") or d.get("messageId") or d.get("id") or "").strip()
  let k1 ← pyGetE key "id"
  let midV ← jOrE k1 (do
    let a ← pyGetE d "messageId"
    jOrE a (do
      let b ← pyGetE d "id"
      jOrE b (pure (.jstr ""))))
  let message_id := pyStrip (← pyStrJ midV)
  -- remote = ((key.get("remoteJid") or d.get("remoteJid") or d.get("from") or "")
  --           if isinstance(d, dict) else "").strip()
  let remoteV ←
    match d with
    | .jobj _ => do
      let r1 ← pyGetE key "remoteJid"
      jOrE r1 (do
        let r2 ← pyGetE d "remoteJid"
        jOrE r2 (do
          let r3 ← pyGetE d "from"
          jOrE r3 (pure (.jstr ""))))
    | _ => pure (.jstr "")
  let remote := pyStrip (← pyStrJ remoteV)
  let from_number :=
    pyStrip (pyReplace (pyReplace (pyReplace remote "@s.whatsapp.net" "") "@c.us" "") "whatsapp:" "")
  -- msg = (d.get("message") or d.get("msg") or {}) if isinstance(d, dict) else {}
  let msgV : JVal :=
    match d with
    | .jobj dl => jOr (dget dl "message") (jOr (dget dl "msg") (.jobj []))
    | _ => .jobj []
  let text := pyStrip (← pyStrJ (extract_text msgV))
  -- from_me = bool(key.get("fromMe") or (d.get("fromMe") if isinstance(d, dict) else False))
  let fm1 ← pyGetE key "fromMe"
  let from_me :=
    if optTruthy fm1 then true
    else
      match d with
      | .jobj dl => optTruthy (dget dl "fromMe")
      | _ => false
  let is_group := pyEndsWith remote "@g.us"
  -- event = (payload.get("event") or "").lower()
  let ev ← pyGetE payload "event"
  let event := pyLower (← pyStrJ (jOr ev (.jstr "")))
  -- status = ((d.get("status") if isinstance(d, dict) else None) or payload.get("status") or "").upper()
  let st1 : Option JVal :=
    match d with
    | .jobj dl => dget dl "status"
    | _ => none
  let stV ← jOrE st1 (do
    let s2 ← pyGetE payload "status"
    jOrE s2 (pure (.jstr "")))
  let status := pyUpper (← pyStrJ stV)
  return ⟨instS, message_id, from_number, text, from_me, is_group, event, status⟩

-- ---------------------------------------------------------------------------
-- app/main.py: webhook dispatch
-- ---------------------------------------------------------------------------

/-- `main._is_simulator_payload`. -/
def _is_simulator_payload (payload : JVal) : Bool :=
  match payload with
  | .jobj l =>
    optIsStr (dget l "source") "simulator" ||
    ((dget l "from_number").isSome && (dget l "text").isSome && (dget l "instance").isSome)
  | _ => false

/-- `main._convert_simulator_to_evolution`, with `int(time.time())` as
`nowTs`. -/
def _convert_simulator_to_evolution (payload : JObj) (nowTs : Int) : Except Unit JVal := do
  let instS := pyStrip (← pyStrJ (jOr (dget payload "instance") (.jstr "")))
  let mid := pyStrip (← pyStrJ (jOr (dget payload "message_id") (jOr (dget payload "id") (.jstr ""))))
  let from_number := pyStrip (← pyStrJ (jOr (dget payload "from_number") (.jstr "")))
  let text := pyStrip (← pyStrJ (jOr (dget payload "text") (.jstr "")))
  let status := pyUpper (pyStrip (← pyStrJ (jOr (dget payload "status") (.jstr "MESSAGE"))))
  let event := pyLower (pyStrip (← pyStrJ (jOr (dget payload "event") (.jstr "messages.upsert"))))
  let remote_jid := if from_number ≠ "" then from_number ++ "@s.whatsapp.net" else ""
  return .jobj [
    ("event", .jstr event),
    ("instance", .jstr instS),
    ("data", .jobj [
      ("key", .jobj [
        ("remoteJid", .jstr remote_jid),
        ("fromMe", .jbool false),
        ("id", .jstr (if mid ≠ "" then mid else "sim-" ++ toString nowTs)),
        ("participant", .jstr ""),
        ("addressingMode", .jstr "pn")]),
      ("pushName", jOr (dget payload "push_name") (.jstr "Simulator")),
      ("status", .jstr status),
      ("message", .jobj [("conversation", .jstr text)]),
      ("messageType", .jstr "conversation"),
      ("messageTimestamp", .jint nowTs),
      ("source", .jstr "simulator")])]

/-- The JSON body returned by the `/webhook` endpoint: `{"ok": …}` plus the
optional `"ignored"`, `"paused"` and `"sent"` keys. -/
structure WebhookResp where
  ok : Bool
  ignored : Option String
  paused : Option Bool
  sent : Option Bool

/-- The ambient configuration and collaborators of `main.webhook`:
environment flags, the `X-SIMULATOR-KEY` request header, the tenant resolver
(`get_agent_by_instance`, as `instance ↦ (client_id, agent_id)`), the rate
limiter verdict, whether `save_handoff_lead` and `evo.send_text` succeed, and
the wall clock. -/
structure WebhookEnv where
  allow_simulator : Bool
  simulator_key : String
  sim_header_key : String
  agents : String → Option (String × String)
  rl_allow : String → Bool
  lead_save_ok : Bool
  send_ok : Bool
  now_ts : Int

/-- The body of `main.webhook`'s `try` block (everything from the
`WEBHOOK_IN` log line on), for an already simulator-converted payload.
`Except.error` models an exception escaping (the `try` has a `finally` but no
`except`), which FastAPI turns into a 500.  `reply_for` is the rule engine
called by the handler (from `app/rules.py`); exceptions it raises escape. -/
def webhook_dispatch (env : WebhookEnv)
    (reply_for : String → String → JObj → Except Unit (Option String × JObj))
    (payload : JVal) (store : MemStore) : Except Unit (WebhookResp × MemStore) := do
  -- logger.info("WEBHOOK_IN: …", payload.get("event"), payload.get("instance")):
  -- raises AttributeError on a non-dict payload (e.g. a JSON array body)
  let _ ← pyGetE payload "event"
  let _ ← pyGetE payload "instance"
  let p ← extract_payload payload
  if p.inst = "" then return (⟨true, some "missing_instance", none, none⟩, store)
  match env.agents p.inst with
  | none => return (⟨true, some "unknown_instance", none, none⟩, store)
  | some _agent =>
    if pyContains p.event "update" = true then return (⟨true, some "update", none, none⟩, store)
    if (p.status = "ACK" ∨ p.status = "READ" ∨ p.status = "DELIVERED" ∨
        p.status = "DELIVERED_TO_DEVICE" ∨ p.status = "SERVER_ACK" ∨
        p.status = "DELIVERY_ACK") ∧ p.text = "" then
      return (⟨true, some "ack/status_no_text", none, none⟩, store)
    if p.from_me = true ∨ p.is_group = true then
      return (⟨true, some "from_me/group", none, none⟩, store)
    -- dedup só se tiver id (seen both tests and records)
    let dup_store := if p.message_id ≠ "" then store.seen p.message_id else (false, store)
    let store1 := dup_store.2
    if dup_store.1 = true then return (⟨true, some "dedup", none, none⟩, store1)
    if p.from_number = "" ∨ p.text = "" then
      return (⟨true, some "missing_number_or_text", none, none⟩, store1)
    if env.rl_allow p.from_number = false then
      return (⟨true, some "rate_limited", none, none⟩, store1)
    -- first-contact / intent side effects are caught and swallowed
    let st_store := store1.get_state p.from_number
    let state0 := st_store.1
    let store2 := st_store.2
    -- ADMIN command "#leads": every branch answers {"ok": True}
    if pyLower (pyStrip p.text) = "#leads" then
      return (⟨true, none, none, none⟩, store2)
    let rs ← reply_for p.from_number p.text state0
    -- `state = store.get_state(number) or {}`: when the stored dict was empty, the
    -- engine mutates a fresh dict, so the stored state is left untouched
    let persist := fun (st : JObj) =>
      if state0.isEmpty = true then store2
      else ⟨store2.seen_ids, aset store2.user_state p.from_number st⟩
    match rs.1 with
    | none => return (⟨true, none, some true, none⟩, persist rs.2)
    | some _r =>
      let state2 :=
        if optIsStr (dget rs.2 "step") "lead_captured" = true ∧
            optTruthy (dget rs.2 "lead") = true ∧
            optTruthy (dget rs.2 "lead_saved") = false ∧ env.lead_save_ok = true then
          aset rs.2 "lead_saved" (.jbool true)
        else rs.2
      return (⟨true, none, none, some env.send_ok⟩, persist state2)

/-- `main.webhook`: JSON parsing (`body = none` models a request whose JSON
fails to parse — the only case the code catches), the DEV-only simulator
gate/conversion, then the dispatch pipeline. -/
def webhook (env : WebhookEnv)
    (reply_for : String → String → JObj → Except Unit (Option String × JObj))
    (body : Option JVal) (store : MemStore) : Except Unit (WebhookResp × MemStore) := do
  match body with
  | none => return (⟨true, some "bad_json", none, none⟩, store)
  | some payload0 =>
    -- DEV-only: Simulator
    if _is_simulator_payload payload0 = true then
      if env.allow_simulator = false then
        return (⟨true, some "simulator_disabled", none, none⟩, store)
      else if env.simulator_key = "" ∨ pyStrip env.sim_header_key ≠ env.simulator_key then
        return (⟨true, some "simulator_unauthorized", none, none⟩, store)
      else
        match payload0 with
        | .jobj l => do
          let payload ← _convert_simulator_to_evolution l env.now_ts
          webhook_dispatch env reply_for payload store
        | .jstr _ | .jint _ | .jbool _ | .jnull | .jarr _ => .error ()
    else
      webhook_dispatch env reply_for payload0 store

-- ---------------------------------------------------------------------------
-- Reduction helpers for the Except monad
-- ---------------------------------------------------------------------------

theorem ok_bind {α β : Type} (a : α) (f : α → Except Unit β) :
    (Except.ok a : Except Unit α) >>= f = f a := rfl

theorem error_bind {α β : Type} (e : Unit) (f : α → Except Unit β) :
    (Except.error e : Except Unit α) >>= f = (.error e : Except Unit β) := rfl

theorem pure_eq_ok {α : Type} (a : α) : (pure a : Except Unit α) = .ok a := rfl

theorem handoff_collect_step_fst_isSome (t : String) (st rules : JObj) :
    (handoff_collect_step t st rules).1.isSome = true := by
  unfold handoff_collect_step
  dsimp only
  split <;> rfl

-- ---------------------------------------------------------------------------
-- Claims
-- ---------------------------------------------------------------------------

/-- C3: `apply_rules` takes the handoff transition exactly when the trimmed,
lowercased text equals the tenant's configured handoff keyword
(`rules.handoff.keyword`, default `"atendente"`): for every state and rules it
sets `step = "handoff_collect"` and returns the `handoff_prompt` template, with
priority over every other check (the keyword test precedes the business-hours
gate, so no other hypothesis is needed); and a text that merely contains the
keyword, such as `"quero falar com atendente"`, does not trigger the
transition (on a fresh state with default rules it falls through to the
welcome branch instead). -/
theorem apply_rules_handoff_keyword_exact :
    (∀ (number text : String) (state rules : JObj) (nowMin : Nat) (kw : String),
      handoff_keyword rules = .ok kw →
      pyLower (pyStrip text) = kw →
      apply_rules number text state rules nowMin =
        .ok (some (get_text rules "messages.handoff_prompt" handoffPromptDefault),
             aset state "step" (.jstr "handoff_collect"))) ∧
    apply_rules "5511999990000" "quero falar com atendente" [] [] 600 =
      .ok (some welcomeDefault, [("step", .jstr "welcome")]) := by
  constructor
  · intro number text state rules nowMin kw hk ht
    simp only [apply_rules, hk, ok_bind]
    rw [if_pos ht]
    rfl
  · rfl

/-- Witness for C3: the keyword typed standalone (here with spacing and capital
letters, `" ATENDENTE "`) triggers the handoff prompt on a fresh state with
empty rules. -/
theorem apply_rules_handoff_keyword_exact_witness :
    apply_rules "55" " ATENDENTE " [] [] 0 =
      .ok (some (get_text [] "messages.handoff_prompt" handoffPromptDefault),
           aset [] "step" (.jstr "handoff_collect")) :=
  apply_rules_handoff_keyword_exact.1 "55" " ATENDENTE " [] [] 0 "atendente" rfl rfl

/-- Counterexample to C4 as stated: with default/empty rules and a fresh state,
the first message `"menu"` is answered with the rendered menu and
`step = "menu"`, not with the welcome template and `step = "welcome"` — so a
fresh conversation's first message is *not* answered with the welcome template
"whatever its text". -/
theorem apply_rules_fresh_menu_not_welcome :
    apply_rules "55" "menu" [] [] 600 =
      .ok (some "*Menu*\n\nDigite o número da opção ou *menu* para ver novamente.",
           [("step", .jstr "menu")]) ∧
    "*Menu*\n\nDigite o número da opção ou *menu* para ver novamente." ≠ welcomeDefault :=
  ⟨rfl, by decide⟩

/-- C4 (amended): for a tenant with empty rules, the first message of a fresh
conversation yields the default welcome message and `step = "welcome"` for
every text except the handoff keyword (`"atendente"`) and the menu commands
(`"menu"`/`"voltar"`), compared after trimming and lowercasing. -/
theorem apply_rules_fresh_welcome (number text : String) (nowMin : Nat)
    (h1 : pyLower (pyStrip text) ≠ "atendente")
    (h2 : pyLower (pyStrip text) ≠ "menu")
    (h3 : pyLower (pyStrip text) ≠ "voltar") :
    apply_rules number text [] [] nowMin =
      .ok (some welcomeDefault, [("step", .jstr "welcome")]) := by
  simp only [apply_rules, show handoff_keyword [] = .ok "atendente" from rfl, ok_bind]
  rw [if_neg h1]
  simp only [show in_business_hours [] nowMin = .ok true from rfl, ok_bind]
  rw [if_neg (by simp)]
  rw [if_neg (not_or.mpr ⟨h2, h3⟩)]
  rw [if_neg (by decide)]
  simp only [show match_menu_option [] (pyStrip text) = .ok none from rfl, ok_bind]
  rfl

/-- Witness for C4 (amended): the first message `"Oi, tudo bem?"` on a fresh
conversation with empty rules gets the default welcome and `step = "welcome"`. -/
theorem apply_rules_fresh_welcome_witness :
    apply_rules "55" "Oi, tudo bem?" [] [] 600 =
      .ok (some welcomeDefault, [("step", .jstr "welcome")]) :=
  apply_rules_fresh_welcome "55" "Oi, tudo bem?" 600 (by decide) (by decide) (by decide)

/-- C10: `apply_rules` never returns `None` — whenever it returns normally
(`Except.ok`, i.e. no exception), the reply component of its `Optional[str]`
result is a string, so the dispatcher's "reply is None ⇒ paused" branch is
unreachable through this engine. -/
theorem apply_rules_never_none (number text : String) (state rules : JObj) (nowMin : Nat)
    (p : Option String × JObj)
    (h : apply_rules number text state rules nowMin = .ok p) :
    p.1.isSome = true := by
  simp only [apply_rules] at h
  rcases hkw : handoff_keyword rules with e | kw <;> rw [hkw] at h
  · rw [error_bind] at h
    exact Except.noConfusion h
  rw [ok_bind] at h
  split at h
  · rw [pure_eq_ok] at h
    injection h with h2
    subst h2
    rfl
  rcases hb : in_business_hours rules nowMin with e | b <;> rw [hb] at h
  · rw [error_bind] at h
    exact Except.noConfusion h
  rw [ok_bind] at h
  split at h
  · rw [pure_eq_ok] at h
    injection h with h2
    subst h2
    rfl
  split at h
  · rcases hm : menu_reply rules with e | m <;> rw [hm] at h
    · rw [error_bind] at h
      exact Except.noConfusion h
    rw [ok_bind, pure_eq_ok] at h
    injection h with h2
    subst h2
    rfl
  split at h
  · rw [pure_eq_ok] at h
    injection h with h2
    subst h2
    exact handoff_collect_step_fst_isSome (pyStrip text) state rules
  rcases ho : match_menu_option rules (pyStrip text) with e | opt <;> rw [ho] at h
  · rw [error_bind] at h
    exact Except.noConfusion h
  rw [ok_bind] at h
  rcases opt with _ | o
  · dsimp only at h
    split at h
    · rw [pure_eq_ok] at h
      injection h with h2
      subst h2
      rfl
    · rw [pure_eq_ok] at h
      injection h with h2
      subst h2
      rfl
  · dsimp only at h
    split at h
    · split at h
      · rcases hm : menu_reply rules with e | m <;> rw [hm] at h
        · rw [error_bind] at h
          exact Except.noConfusion h
        rw [ok_bind, pure_eq_ok] at h
        injection h with h2
        subst h2
        rfl
      split at h
      · rw [pure_eq_ok] at h
        injection h with h2
        subst h2
        rfl
      · rw [pure_eq_ok] at h
        injection h with h2
        subst h2
        rfl
    · rw [pure_eq_ok] at h
      injection h with h2
      subst h2
      rfl

/-- Witness for C10, at a concrete fresh-conversation input. -/
theorem apply_rules_never_none_witness :
    ((some welcomeDefault, [("step", JVal.jstr "welcome")]) : Option String × JObj).1.isSome = true :=
  apply_rules_never_none "55" "oi" [] [] 600 (some welcomeDefault, [("step", .jstr "welcome")]) rfl

/-- Shared helper: in state `step = "handoff_collect"`, when the text is not the
handoff keyword and not a menu command and the business-hours check returns
normally (with either verdict — the off-hours gate is bypassed in this state),
`apply_rules` runs the lead-collection branch. -/
theorem apply_rules_collect_gate (number text : String) (state rules : JObj) (nowMin : Nat)
    (kw : String) (b : Bool)
    (hstep : dget state "step" = some (.jstr "handoff_collect"))
    (hk : handoff_keyword rules = .ok kw)
    (hne : pyLower (pyStrip text) ≠ kw)
    (hm1 : pyLower (pyStrip text) ≠ "menu")
    (hm2 : pyLower (pyStrip text) ≠ "voltar")
    (hb : in_business_hours rules nowMin = .ok b) :
    apply_rules number text state rules nowMin =
      .ok (handoff_collect_step (pyStrip text) state rules) := by
  have hj : jOr (dget state "step") (.jstr "") = .jstr "handoff_collect" := by
    rw [hstep]; rfl
  have hcol : optIsStr (dget state "step") "handoff_collect" = true := by
    rw [hstep]; rfl
  simp only [apply_rules, hk, ok_bind]
  rw [if_neg hne]
  simp only [hb, ok_bind]
  rw [if_neg (by rw [hj]; simp [isStr])]
  rw [if_neg (not_or.mpr ⟨hm1, hm2⟩)]
  rw [if_pos hcol]
  rfl

/-- Counterexample to C1 as stated: the `handoff_ok` placeholders substituted by
the code are `{nome}`/`{telefone}`/`{assunto}`, not `{name}`/`{phone}`/
`{subject}`, and the stored lead keys are `"nome"`/`"telefone"`/`"assunto"`.  A
tenant template `"Oi {name}"` is *not* substituted: formatting raises `KeyError`
and `_safe_format` degrades to the raw template, so the reply is `"Oi {name}"`,
not `"Oi A"`. -/
theorem apply_rules_handoff_placeholder_names :
    apply_rules "55" "A - B - C" [("step", .jstr "handoff_collect")]
        [("messages", .jobj [("handoff_ok", .jstr "Oi {name}")])] 600 =
      .ok (some "Oi {name}",
           [("step", .jstr "lead_captured"),
            ("lead", .jobj [("nome", .jstr "A"), ("telefone", .jstr "B"),
                            ("assunto", .jstr "C")])]) ∧
    "Oi {name}" ≠ "Oi A" :=
  ⟨rfl, by decide⟩

/-- C1 (amended): in state `step = "handoff_collect"`, for every rules dict
(whose handoff keyword and business-hours config evaluate without raising),
when the text is neither the handoff keyword nor a menu command,
`apply_rules` splits the stripped text on `"-"`: with at least 3 parts it
stores `lead = {nome: first part, telefone: second part, assunto: remaining
parts rejoined}`, sets `step = "lead_captured"`, and returns the `handoff_ok`
template with its `{nome}`/`{telefone}`/`{assunto}` placeholders substituted
(never raising on a malformed template — `safe_format` degrades to the raw
template string); with fewer than 3 parts it returns the `handoff_retry`
template and leaves the state unchanged.  In particular
`"Maria Silva - 11999999999 - Dúvida sobre preço"` produces the lead
`{nome: "Maria Silva", telefone: "11999999999", assunto: "Dúvida sobre
preço"}`, step `"lead_captured"`, and a confirmation reply containing
`"Maria Silva"`, while `"só meu nome"` leaves the state unchanged and returns
the retry template. -/
theorem apply_rules_handoff_collect_branch :
    (∀ (number text : String) (state rules : JObj) (nowMin : Nat) (kw : String) (b : Bool)
        (a bb c : String) (rest : List String),
      dget state "step" = some (.jstr "handoff_collect") →
      handoff_keyword rules = .ok kw →
      pyLower (pyStrip text) ≠ kw →
      pyLower (pyStrip text) ≠ "menu" →
      pyLower (pyStrip text) ≠ "voltar" →
      in_business_hours rules nowMin = .ok b →
      (pySplit (pyStrip text) '-').map pyStrip = a :: bb :: c :: rest →
      apply_rules number text state rules nowMin =
        .ok (some (safe_format (get_text rules "messages.handoff_ok" handoffOkDefault)
                [("nome", if pyStrip a = "" then "🙂" else pyStrip a),
                 ("telefone", if pyStrip bb = "" then "" else pyStrip bb),
                 ("assunto", if pyStrip (pyJoin "-" (c :: rest)) = "" then ""
                             else pyStrip (pyJoin "-" (c :: rest)))]),
             aset (aset state "lead"
                 (.jobj [("nome", .jstr (pyStrip a)), ("telefone", .jstr (pyStrip bb)),
                         ("assunto", .jstr (pyStrip (pyJoin "-" (c :: rest))))]))
               "step" (.jstr "lead_captured"))) ∧
    (∀ (number text : String) (state rules : JObj) (nowMin : Nat) (kw : String) (b : Bool),
      dget state "step" = some (.jstr "handoff_collect") →
      handoff_keyword rules = .ok kw →
      pyLower (pyStrip text) ≠ kw →
      pyLower (pyStrip text) ≠ "menu" →
      pyLower (pyStrip text) ≠ "voltar" →
      in_business_hours rules nowMin = .ok b →
      ((pySplit (pyStrip text) '-').map pyStrip).length < 3 →
      apply_rules number text state rules nowMin =
        .ok (some (get_text rules "messages.handoff_retry" handoffRetryDefault), state)) ∧
    apply_rules "55" "Maria Silva - 11999999999 - Dúvida sobre preço"
        [("step", .jstr "handoff_collect")] [] 600 =
      .ok (some "Obrigado, Maria Silva! ✅ Recebemos suas informações e um atendente vai falar com você em breve.",
           [("step", .jstr "lead_captured"),
            ("lead", .jobj [("nome", .jstr "Maria Silva"), ("telefone", .jstr "11999999999"),
                            ("assunto", .jstr "Dúvida sobre preço")])]) ∧
    pyContains "Obrigado, Maria Silva! ✅ Recebemos suas informações e um atendente vai falar com você em breve." "Maria Silva" = true ∧
    apply_rules "55" "só meu nome" [("step", .jstr "handoff_collect")] [] 600 =
      .ok (some handoffRetryDefault, [("step", .jstr "handoff_collect")]) := by
  refine ⟨?_, ?_, rfl, by decide, rfl⟩
  · intro number text state rules nowMin kw b a bb c rest hstep hk hne hm1 hm2 hb hparts
    rw [apply_rules_collect_gate number text state rules nowMin kw b hstep hk hne hm1 hm2 hb]
    simp only [handoff_collect_step, hparts]
  · intro number text state rules nowMin kw b hstep hk hne hm1 hm2 hb hlen
    rw [apply_rules_collect_gate number text state rules nowMin kw b hstep hk hne hm1 hm2 hb]
    rcases hp : (pySplit (pyStrip text) '-').map pyStrip with _ | ⟨a, _ | ⟨b2, _ | ⟨c2, rest⟩⟩⟩
    · simp only [handoff_collect_step, hp]
    · simp only [handoff_collect_step, hp]
    · simp only [handoff_collect_step, hp]
    · rw [hp] at hlen
      simp at hlen
      omega

/-- Witness for C1 (amended), at a concrete capture. -/
theorem apply_rules_handoff_collect_branch_witness :
    apply_rules "55" "Ana - 119 - Preço" [("step", .jstr "handoff_collect")] [] 600 =
      .ok (some "Obrigado, Ana! ✅ Recebemos suas informações e um atendente vai falar com você em breve.",
           [("step", .jstr "lead_captured"),
            ("lead", .jobj [("nome", .jstr "Ana"), ("telefone", .jstr "119"),
                            ("assunto", .jstr "Preço")])]) :=
  apply_rules_handoff_collect_branch.1 "55" "Ana - 119 - Preço"
    [("step", .jstr "handoff_collect")] [] 600 "atendente" true "Ana" "119" "Preço" []
    rfl rfl (by decide) (by decide) (by decide) rfl rfl

/-- Counterexample to C2 as stated: outside business hours with a step outside
`{handoff_collect, lead_captured}`, the reply is *not* the off-hours template
"regardless of message content" — the handoff keyword is checked first, so
`"atendente"` returns the handoff prompt and mutates the state. -/
theorem apply_rules_off_hours_keyword_overrides :
    apply_rules "55" "atendente" []
        [("hours", .jobj [("mode", .jstr "business"), ("open", .jstr "09:00"),
                          ("close", .jstr "18:00")])] 1200 =
      .ok (some handoffPromptDefault, [("step", .jstr "handoff_collect")]) ∧
    handoffPromptDefault ≠ offHoursDefault ∧
    ([("step", JVal.jstr "handoff_collect")] : JObj) ≠ [] :=
  ⟨rfl, by decide, by simp⟩

/-- C2 (amended): with `hours.mode == "business"` and the local time outside the
`[open, close]` window (`in_business_hours` returns `ok false`): (a) if the
step is neither `"handoff_collect"` nor `"lead_captured"` and the text is not
the handoff keyword, `apply_rules` returns the `off_hours` template with no
state change, regardless of any other message content (the menu commands are
checked only after this gate); (b) if the step is `"handoff_collect"`, the
gate is bypassed and the handoff-collection branch still runs; (c) if the step
is `"lead_captured"`, the gate is bypassed and processing continues (falling
through to the fallback reply when no menu option matches). -/
theorem apply_rules_off_hours_gate :
    (∀ (number text : String) (state rules : JObj) (nowMin : Nat) (kw : String),
      handoff_keyword rules = .ok kw →
      pyLower (pyStrip text) ≠ kw →
      in_business_hours rules nowMin = .ok false →
      isStr (jOr (dget state "step") (.jstr "")) "handoff_collect" = false →
      isStr (jOr (dget state "step") (.jstr "")) "lead_captured" = false →
      apply_rules number text state rules nowMin =
        .ok (some (get_text rules "messages.off_hours" offHoursDefault), state)) ∧
    (∀ (number text : String) (state rules : JObj) (nowMin : Nat) (kw : String),
      dget state "step" = some (.jstr "handoff_collect") →
      handoff_keyword rules = .ok kw →
      pyLower (pyStrip text) ≠ kw →
      pyLower (pyStrip text) ≠ "menu" →
      pyLower (pyStrip text) ≠ "voltar" →
      in_business_hours rules nowMin = .ok false →
      apply_rules number text state rules nowMin =
        .ok (handoff_collect_step (pyStrip text) state rules)) ∧
    (∀ (number text : String) (state rules : JObj) (nowMin : Nat) (kw : String),
      dget state "step" = some (.jstr "lead_captured") →
      handoff_keyword rules = .ok kw →
      pyLower (pyStrip text) ≠ kw →
      pyLower (pyStrip text) ≠ "menu" →
      pyLower (pyStrip text) ≠ "voltar" →
      in_business_hours rules nowMin = .ok false →
      match_menu_option rules (pyStrip text) = .ok none →
      apply_rules number text state rules nowMin =
        .ok (some (get_text rules "messages.fallback" fallbackDefault), state)) := by
  refine ⟨?_, ?_, ?_⟩
  · intro number text state rules nowMin kw hk hne hb hs1 hs2
    simp only [apply_rules, hk, ok_bind]
    rw [if_neg hne]
    simp only [hb, ok_bind]
    rw [if_pos ⟨by trivial, hs1, hs2⟩]
    rfl
  · intro number text state rules nowMin kw hstep hk hne hm1 hm2 hb
    exact apply_rules_collect_gate number text state rules nowMin kw false hstep hk hne hm1 hm2 hb
  · intro number text state rules nowMin kw hstep hk hne hm1 hm2 hb hmo
    have hj : jOr (dget state "step") (.jstr "") = .jstr "lead_captured" := by
      rw [hstep]; rfl
    simp only [apply_rules, hk, ok_bind]
    rw [if_neg hne]
    simp only [hb, ok_bind]
    rw [if_neg (by rw [hj]; simp [isStr])]
    rw [if_neg (not_or.mpr ⟨hm1, hm2⟩)]
    rw [if_neg (by rw [hstep]; simp [optIsStr, isStr])]
    simp only [hmo, ok_bind]
    rw [if_neg (by rw [hstep]; decide)]
    rfl

/-- Witness for C2 (amended): outside 09:00–18:00 at 20:00, a plain message on
a fresh state gets the off-hours reply with no state change. -/
theorem apply_rules_off_hours_gate_witness :
    apply_rules "55" "oi" []
        [("hours", .jobj [("mode", .jstr "business"), ("open", .jstr "09:00"),
                          ("close", .jstr "18:00")])] 1200 =
      .ok (some offHoursDefault, []) :=
  apply_rules_off_hours_gate.1 "55" "oi" []
    [("hours", .jobj [("mode", .jstr "business"), ("open", .jstr "09:00"),
                      ("close", .jstr "18:00")])] 1200 "atendente"
    rfl (by decide) rfl rfl rfl

/-- Counterexample to C6 as stated: `seen` on a not-previously-seen id records
it but returns `False`, not `True` (it answers "was this id already seen?",
returning `True` only for an id seen before). -/
theorem store_seen_new_id_returns_false :
    MemStore.seen ⟨[], []⟩ "m1" = (false, ⟨["m1"], []⟩) ∧ false ≠ true :=
  ⟨rfl, by decide⟩

/-- C6 (amended): `seen(message_id)` records the id and returns `False` if the
id was not previously seen, returns `True` (recording nothing) if it was, and
an empty `message_id` is always "not seen" and never recorded; consequently,
dispatching the same non-empty `message_id` twice makes the second call be
ignored with reason `"dedup"` (shown on a concrete two-call run of the webhook
pipeline). -/
theorem store_seen_dedup :
    (∀ (st : MemStore) (mid : String), mid ≠ "" → mid ∉ st.seen_ids →
      st.seen mid = (false, ⟨mid :: st.seen_ids, st.user_state⟩)) ∧
    (∀ (st : MemStore) (mid : String), mid ≠ "" → mid ∈ st.seen_ids →
      st.seen mid = (true, st)) ∧
    (∀ st : MemStore, st.seen "" = (false, st)) ∧
    webhook ⟨false, "", "", (fun i => if i = "inst1" then some ("c1", "a1") else none),
             (fun _ => true), true, true, 1700000000⟩
        (fun _ _ st => .ok (some "oi!", st))
        (some (.jobj [("event", .jstr "messages.upsert"), ("instance", .jstr "inst1"),
          ("data", .jobj [
            ("key", .jobj [("remoteJid", .jstr "5511999999999@s.whatsapp.net"),
                           ("fromMe", .jbool false), ("id", .jstr "m1")]),
            ("message", .jobj [("conversation", .jstr "oi")]),
            ("status", .jstr "MESSAGE")])]))
        ⟨[], []⟩ =
      .ok (⟨true, none, none, some true⟩, ⟨["m1"], [("5511999999999", [])]⟩) ∧
    webhook ⟨false, "", "", (fun i => if i = "inst1" then some ("c1", "a1") else none),
             (fun _ => true), true, true, 1700000000⟩
        (fun _ _ st => .ok (some "oi!", st))
        (some (.jobj [("event", .jstr "messages.upsert"), ("instance", .jstr "inst1"),
          ("data", .jobj [
            ("key", .jobj [("remoteJid", .jstr "5511999999999@s.whatsapp.net"),
                           ("fromMe", .jbool false), ("id", .jstr "m1")]),
            ("message", .jobj [("conversation", .jstr "oi")]),
            ("status", .jstr "MESSAGE")])]))
        ⟨["m1"], [("5511999999999", [])]⟩ =
      .ok (⟨true, some "dedup", none, none⟩, ⟨["m1"], [("5511999999999", [])]⟩) := by
  refine ⟨?_, ?_, ?_, rfl, rfl⟩
  · intro st mid h1 h2
    unfold MemStore.seen
    rw [if_neg h1, if_neg h2]
  · intro st mid h1 h2
    unfold MemStore.seen
    rw [if_neg h1, if_pos h2]
  · intro st
    unfold MemStore.seen
    rw [if_pos rfl]

/-- Witness for C6 (amended): a fresh id is recorded and reported unseen. -/
theorem store_seen_dedup_witness :
    MemStore.seen ⟨["old"], []⟩ "m9" = (false, ⟨["m9", "old"], []⟩) :=
  store_seen_dedup.1 ⟨["old"], []⟩ "m9" (by decide) (by simp)

/-- Helper: popping a key from a string-keyed assoc list removes it. -/
theorem lookup_apop {α : Type} (l : List (String × α)) (k : String) :
    (apop l k).lookup k = none := by
  induction l with
  | nil => rfl
  | cons e t ih =>
    obtain ⟨k0, v⟩ := e
    by_cases he : k0 = k
    · subst he
      simp only [apop] at ih ⊢
      rw [List.filter_cons]
      simp [ih]
    · have h2 : (k == k0) = false := by simp [Ne.symm he]
      have h3 : ((k0, v).1 != k) = true := by simp [bne, he]
      simp only [apop] at ih ⊢
      rw [List.filter_cons, if_pos h3]
      simp [List.lookup, h2, ih]

/-- C9: after `invalidate_agent_rules(agent_id)`, the next
`load_rules_for_agent(agent_id)` returns the rules currently in the store; but
with the default `_CACHE_TTL_SECONDS = 0` the cache is *not* always-fresh: the
`<= 0` test makes every cache hit permanent, so a store edit without an
invalidation call keeps serving the stale cached rules (concrete run: rules
edited from `{"x": "1"}` to `{"x": "2"}`, second load still returns
`{"x": "1"}`). -/
theorem load_rules_invalidate_fresh_but_ttl0_stale :
    (∀ (db : RulesDB) (cache : RulesCache) (agent_id : String) (now : Int),
      agent_id ≠ "" →
      (load_rules_for_agent db (invalidate_agent_rules cache agent_id) agent_id now).1 =
        db_rules_of db agent_id) ∧
    load_rules_for_agent ⟨fun a => if a = "a1" then some (.jobj [("x", .jstr "1")]) else none⟩
        [] "a1" 100 =
      (.jobj [("x", .jstr "1")], [("a1", (100, .jobj [("x", .jstr "1")]))]) ∧
    load_rules_for_agent ⟨fun a => if a = "a1" then some (.jobj [("x", .jstr "2")]) else none⟩
        [("a1", (100, .jobj [("x", .jstr "1")]))] "a1" 200 =
      (.jobj [("x", .jstr "1")], [("a1", (100, .jobj [("x", .jstr "1")]))]) ∧
    db_rules_of ⟨fun a => if a = "a1" then some (.jobj [("x", .jstr "2")]) else none⟩ "a1" =
      .jobj [("x", .jstr "2")] ∧
    (JVal.jobj [("x", .jstr "1")]) ≠ (JVal.jobj [("x", .jstr "2")]) := by
  refine ⟨?_, rfl, rfl, rfl, by simp⟩
  intro db cache agent_id now ha
  unfold load_rules_for_agent invalidate_agent_rules
  rw [if_neg ha, lookup_apop]

/-- Witness for C9's universal part: invalidate-then-load on a concrete store. -/
theorem load_rules_invalidate_fresh_witness :
    (load_rules_for_agent ⟨fun a => if a = "a1" then some (.jobj [("x", .jstr "2")]) else none⟩
        (invalidate_agent_rules [("a1", (100, .jobj [("x", .jstr "1")]))] "a1") "a1" 200).1 =
      db_rules_of ⟨fun a => if a = "a1" then some (.jobj [("x", .jstr "2")]) else none⟩ "a1" :=
  load_rules_invalidate_fresh_but_ttl0_stale.1
    ⟨fun a => if a = "a1" then some (.jobj [("x", .jstr "2")]) else none⟩
    [("a1", (100, .jobj [("x", .jstr "1")]))] "a1" 200 (by decide)

-- ---------------------------------------------------------------------------
-- Substring preservation through strip/lower, for the AI-gate claim
-- ---------------------------------------------------------------------------

theorem toList_mk (l : List Char) : (String.mk l).toList = l := rfl

theorem mk_toList (s : String) : String.mk s.toList = s := rfl

theorem pyLower_toList (s : String) :
    (pyLower s).toList = s.toList.map Char.toLower := rfl

theorem pyStrip_toList (s : String) :
    (pyStrip s).toList =
      ((s.toList.dropWhile pyIsSpace).reverse.dropWhile pyIsSpace).reverse := rfl

/-- Dropping leading whitespace cannot eat past a non-whitespace character:
an occurrence starting with a non-space character survives as a suffix. -/
theorem dropWhile_append_nonspace (p : List Char) {c : Char}
    (hc : pyIsSpace c = false) (r : List Char) :
    ∃ p2, List.dropWhile pyIsSpace (p ++ c :: r) = p2 ++ c :: r := by
  induction p with
  | nil => exact ⟨[], by simp [List.dropWhile_cons, hc]⟩
  | cons x xs ih =>
    by_cases hx : pyIsSpace x
    · obtain ⟨p2, hp⟩ := ih
      exact ⟨p2, by simp [List.dropWhile_cons, hx, hp]⟩
    · exact ⟨x :: xs, by simp [List.dropWhile_cons, hx]⟩

/-- Python `strip` preserves any occurrence whose first and last characters are
non-whitespace. -/
theorem strip_keeps_infix (p q s : List Char) (c0 : Char) (s0 : List Char)
    (cl : Char) (sl : List Char)
    (h1 : s = c0 :: s0) (h2 : s = sl ++ [cl])
    (hc0 : pyIsSpace c0 = false) (hcl : pyIsSpace cl = false) :
    ∃ p2 q2,
      ((List.dropWhile pyIsSpace (p ++ s ++ q)).reverse.dropWhile pyIsSpace).reverse =
        p2 ++ s ++ q2 := by
  have e1 : p ++ s ++ q = p ++ c0 :: (s0 ++ q) := by
    rw [h1]; simp [List.append_assoc]
  obtain ⟨pa, hpa⟩ := dropWhile_append_nonspace p hc0 (s0 ++ q)
  have e2 : List.dropWhile pyIsSpace (p ++ s ++ q) = pa ++ s ++ q := by
    rw [e1, hpa, h1]; simp [List.append_assoc]
  have e3 : (pa ++ s ++ q).reverse = q.reverse ++ cl :: (sl.reverse ++ pa.reverse) := by
    rw [h2]
    simp [List.reverse_append, List.append_assoc]
  obtain ⟨qa, hqa⟩ := dropWhile_append_nonspace q.reverse hcl (sl.reverse ++ pa.reverse)
  have e4 : List.dropWhile pyIsSpace (pa ++ s ++ q).reverse =
      qa ++ s.reverse ++ pa.reverse := by
    rw [e3, hqa, h2]
    simp [List.reverse_append, List.append_assoc]
  refine ⟨pa, qa.reverse, ?_⟩
  rw [e2, e4]
  simp [List.reverse_append, List.append_assoc]

/-- The menu-shape regex matches right after any newline whose tail matches the
anchored pattern. -/
theorem menuShapeAux_of_anchor (A B : List Char) (hB : menuShapeAt B = true) :
    menuShapeAux (A ++ '\n' :: B) = true := by
  induction A with
  | nil => simp [menuShapeAux, hB]
  | cons x xs ih => simp [menuShapeAux, ih]

/-- The anchored menu-shape pattern matches `"2 - …"` whatever follows. -/
theorem menuShapeAt_digit_dash (r : List Char) :
    menuShapeAt ('2' :: ' ' :: '-' :: r) = true := by
  simp [menuShapeAt, List.dropWhile_cons, List.takeWhile_cons,
    show pyIsSpace '2' = false from rfl, show Char.isDigit '2' = true from rfl,
    show Char.isDigit ' ' = false from rfl, show pyIsSpace ' ' = true from rfl,
    show pyIsSpace '-' = false from rfl]

/-- Any string whose character list contains `"1 - vendas\n2 - suporte"` as an
infix has the menu shape (the `\n2 - ` inside the occurrence anchors the
regex). -/
theorem menuShapeSearch_of_infix (p q : List Char)
    (l : List Char)
    (hl : l = p ++ ("1 - vendas\n2 - suporte").toList ++ q) :
    menuShapeSearch l = true := by
  have hdec : ("1 - vendas\n2 - suporte").toList =
      ("1 - vendas").toList ++ '\n' :: ("2 - suporte").toList := by decide
  have hsub : ("2 - suporte").toList = '2' :: ' ' :: '-' :: (' ' :: "suporte".toList) := by
    decide
  have hB : menuShapeAt (("2 - suporte").toList ++ q) = true := by
    rw [hsub]
    simpa [List.cons_append] using
      menuShapeAt_digit_dash ((' ' :: "suporte".toList) ++ q)
  have : l = (p ++ ("1 - vendas").toList) ++ '\n' :: (("2 - suporte").toList ++ q) := by
    rw [hl, hdec]; simp [List.append_assoc]
  rw [this]
  unfold menuShapeSearch
  rw [menuShapeAux_of_anchor (p ++ ("1 - vendas").toList) (("2 - suporte").toList ++ q) hB]
  simp

theorem length_dropWhile_le (p : Char → Bool) (l : List Char) :
    (l.dropWhile p).length ≤ l.length := by
  induction l with
  | nil => simp
  | cons x xs ih =>
    by_cases hx : p x
    · rw [List.dropWhile_cons_of_pos hx]
      simp only [List.length_cons]
      omega
    · rw [List.dropWhile_cons_of_neg hx]

/-- Normalization (`strip` then `lower`) never lengthens a string. -/
theorem aiNorm_length_le (s : String) : (aiNorm (some s)).length ≤ s.length := by
  show (pyLower (pyStrip s)).length ≤ s.length
  have h1 : (pyLower (pyStrip s)).length = (pyStrip s).length := by
    show ((pyStrip s).toList.map Char.toLower).length = (pyStrip s).length
    rw [List.length_map]
    rfl
  rw [h1]
  show (((s.toList.dropWhile pyIsSpace).reverse.dropWhile pyIsSpace).reverse).length ≤ s.length
  rw [List.length_reverse]
  calc ((s.toList.dropWhile pyIsSpace).reverse.dropWhile pyIsSpace).length
      ≤ (s.toList.dropWhile pyIsSpace).reverse.length :=
        length_dropWhile_le pyIsSpace _
    _ = (s.toList.dropWhile pyIsSpace).length := List.length_reverse _
    _ ≤ s.toList.length := length_dropWhile_le pyIsSpace _
    _ = s.length := rfl

/-- Normalizing a string whose characters are `p ++ S ++ q`, where `S` is the
capitalized menu block `"1 - Vendas\n2 - Suporte"`, yields a string whose
characters contain the lowercase block as an infix. -/
theorem aiNorm_keeps_menu_block (br : String) (p q : List Char)
    (hbr : br.toList = p ++ ("1 - Vendas\n2 - Suporte").toList ++ q) :
    ∃ p2 q2, (aiNorm (some br)).toList =
      p2 ++ ("1 - vendas\n2 - suporte").toList ++ q2 := by
  have hhead : ("1 - Vendas\n2 - Suporte").toList =
      '1' :: (" - Vendas\n2 - Suporte").toList := by decide
  have hlast : ("1 - Vendas\n2 - Suporte").toList =
      ("1 - Vendas\n2 - Suport").toList ++ ['e'] := by decide
  obtain ⟨p2, q2, hstrip⟩ :=
    strip_keeps_infix p q ("1 - Vendas\n2 - Suporte").toList
      '1' (" - Vendas\n2 - Suporte").toList 'e' ("1 - Vendas\n2 - Suport").toList
      hhead hlast rfl rfl
  refine ⟨p2.map Char.toLower, q2.map Char.toLower, ?_⟩
  show (pyLower (pyStrip br)).toList = _
  rw [pyLower_toList, pyStrip_toList]
  have : br.toList = p ++ ("1 - Vendas\n2 - Suporte").toList ++ q := hbr
  rw [this, hstrip]
  simp only [List.map_append]
  have hmap : ("1 - Vendas\n2 - Suporte").toList.map Char.toLower =
      ("1 - vendas\n2 - suporte").toList := by decide
  rw [hmap]

/-- Normalizing a string whose characters are `p ++ S ++ q`, where `S` is the
lowercase menu block, again contains the block (the block is unchanged by a
second `strip`/`lower` pass). -/
theorem aiNorm_keeps_menu_block_lower (br : String) (p q : List Char)
    (hbr : br.toList = p ++ ("1 - vendas\n2 - suporte").toList ++ q) :
    ∃ p2 q2, (aiNorm (some br)).toList =
      p2 ++ ("1 - vendas\n2 - suporte").toList ++ q2 := by
  have hhead : ("1 - vendas\n2 - suporte").toList =
      '1' :: (" - vendas\n2 - suporte").toList := by decide
  have hlast : ("1 - vendas\n2 - suporte").toList =
      ("1 - vendas\n2 - suport").toList ++ ['e'] := by decide
  obtain ⟨p2, q2, hstrip⟩ :=
    strip_keeps_infix p q ("1 - vendas\n2 - suporte").toList
      '1' (" - vendas\n2 - suporte").toList 'e' ("1 - vendas\n2 - suport").toList
      hhead hlast rfl rfl
  refine ⟨p2.map Char.toLower, q2.map Char.toLower, ?_⟩
  show (pyLower (pyStrip br)).toList = _
  rw [pyLower_toList, pyStrip_toList, hbr, hstrip]
  simp only [List.map_append]
  have hmap : ("1 - vendas\n2 - suporte").toList.map Char.toLower =
      ("1 - vendas\n2 - suporte").toList := by decide
  rw [hmap]

/-- A base reply containing the lowercase menu block after normalization is
detected by `_has_menu_shape`. -/
theorem has_menu_shape_of_block (bt : String) (p q : List Char)
    (hbt : bt.toList = p ++ ("1 - vendas\n2 - suporte").toList ++ q) :
    _has_menu_shape bt = true := by
  obtain ⟨p2, q2, hnorm⟩ := aiNorm_keeps_menu_block_lower bt p q hbt
  have hne : aiNorm (some bt) ≠ "" := by
    intro h
    rw [h] at hnorm
    exact absurd hnorm.symm (by simp)
  have hsearch : menuShapeSearch (aiNorm (some bt)).toList = true :=
    menuShapeSearch_of_infix p2 q2 _ hnorm
  unfold _has_menu_shape
  rw [if_neg hne, if_pos hsearch]

/-- Counterexample to C7 as stated: `"1 - Vendas"` is a base reply of at most
45 characters, yet the gate reports `"menu_shape_in_base_reply"`, not
`"operational_base_reply"` — the menu-shape check runs first. -/
theorem ai_gate_short_menu_reason :
    ai_should_run "oi" (some "1 - Vendas") [] false =
      .ok (false, "menu_shape_in_base_reply") ∧
    "1 - Vendas".length ≤ 45 ∧
    "menu_shape_in_base_reply" ≠ "operational_base_reply" :=
  ⟨rfl, by decide, by decide⟩

/-- C7 (amended): provided the earlier gates pass (not paused, the user text
does not contain the handoff keyword, the state step is a string outside
`{handoff_collect, lead_captured}`, no unsaved lead dict in state):
(i) for every base reply containing `"1 - Vendas\n2 - Suporte"`,
`ai_should_run` returns `(False, "menu_shape_in_base_reply")`; and (ii) for
every base reply of at most 45 characters that is non-blank after
normalization and without menu shape, it returns
`(False, "operational_base_reply")`. -/
theorem ai_gate_menu_shape_and_short :
    (∀ (user_text br : String) (st : JObj) (sstep : String) (p q : List Char),
      pyContains (aiNorm (some user_text)) "atendente" = false →
      normJ (dget st "step") = .ok sstep →
      sstep ≠ "handoff_collect" → sstep ≠ "lead_captured" →
      ai_lead_gate st = false →
      br.toList = p ++ ("1 - Vendas\n2 - Suporte").toList ++ q →
      ai_should_run user_text (some br) st false =
        .ok (false, "menu_shape_in_base_reply")) ∧
    (∀ (user_text : String) (base_reply : Option String) (st : JObj) (sstep : String),
      pyContains (aiNorm (some user_text)) "atendente" = false →
      normJ (dget st "step") = .ok sstep →
      sstep ≠ "handoff_collect" → sstep ≠ "lead_captured" →
      ai_lead_gate st = false →
      aiNorm base_reply ≠ "" →
      (base_reply.getD "").length ≤ 45 →
      _has_menu_shape (aiNorm base_reply) = false →
      ai_should_run user_text base_reply st false =
        .ok (false, "operational_base_reply")) := by
  constructor
  · intro user_text br st sstep p q hut hstep hs1 hs2 hlead hbr
    obtain ⟨p1, q1, hbt⟩ := aiNorm_keeps_menu_block br p q hbr
    have hshape : _has_menu_shape (aiNorm (some br)) = true :=
      has_menu_shape_of_block (aiNorm (some br)) p1 q1 hbt
    have hbtne : aiNorm (some br) ≠ "" := by
      intro h
      rw [h] at hbt
      exact absurd hbt.symm (by simp)
    simp only [ai_should_run]
    rw [if_neg (by decide)]
    rw [if_neg hbtne]
    rw [if_neg (show ¬(aiNorm (some user_text) = "atendente" ∨
        pyContains (aiNorm (some user_text)) "atendente" = true) from by
      rintro (h | h)
      · rw [h] at hut
        exact absurd hut (by decide)
      · rw [hut] at h
        exact Bool.noConfusion h)]
    rw [hstep]
    simp only [pure_eq_ok, ok_bind]
    rw [if_neg (not_or.mpr ⟨hs1, hs2⟩)]
    rw [if_neg (by rw [hlead]; decide)]
    rw [if_pos hshape]
  · intro user_text base_reply st sstep hut hstep hs1 hs2 hlead hbtne hlen hmenu
    have hop : _looks_operational (aiNorm base_reply) = true := by
      unfold _looks_operational
      by_cases hz : aiNorm (some (aiNorm base_reply)) = ""
      · rw [if_pos hz]
      · rw [if_neg hz, if_pos ?_]
        calc (aiNorm (some (aiNorm base_reply))).length
            ≤ (aiNorm base_reply).length := aiNorm_length_le _
          _ = (aiNorm (some (base_reply.getD ""))).length := rfl
          _ ≤ (base_reply.getD "").length := aiNorm_length_le _
          _ ≤ 45 := hlen
    simp only [ai_should_run]
    rw [if_neg (by decide)]
    rw [if_neg hbtne]
    rw [if_neg (show ¬(aiNorm (some user_text) = "atendente" ∨
        pyContains (aiNorm (some user_text)) "atendente" = true) from by
      rintro (h | h)
      · rw [h] at hut
        exact absurd hut (by decide)
      · rw [hut] at h
        exact Bool.noConfusion h)]
    rw [hstep]
    simp only [pure_eq_ok, ok_bind]
    rw [if_neg (not_or.mpr ⟨hs1, hs2⟩)]
    rw [if_neg (by rw [hlead]; decide)]
    rw [if_neg (by rw [hmenu]; decide)]
    rw [if_pos hop]

/-- Witness for C7 (amended): a long reply embedding the menu block is blocked
with the menu-shape reason. -/
theorem ai_gate_menu_shape_and_short_witness :
    ai_should_run "oi" (some "Olá!\n1 - Vendas\n2 - Suporte") [] false =
      .ok (false, "menu_shape_in_base_reply") :=
  ai_gate_menu_shape_and_short.1 "oi" "Olá!\n1 - Vendas\n2 - Suporte" [] ""
    ("Olá!\n").toList [] (by decide) rfl (by decide) (by decide) rfl (by decide)

-- ---------------------------------------------------------------------------
-- C8: payload normalizer
-- ---------------------------------------------------------------------------

/-- "No known text shape matches": each probe of `extract_text` comes up
empty (non-dict messages vacuously match). -/
def noTextShape : JVal → Bool
  | .jobj m =>
    (convText m).isNone && (etmText m).isNone && (brmText m).isNone &&
      (lrmText m).isNone && (mediaText m).isNone
  | _ => true

/-- Counterexample to C8 as stated: `extract_payload` does *not* return on
every JSON object payload — a non-string `instance` value (here the integer 5)
is truthy, so `.strip()` raises `AttributeError`. -/
theorem extract_payload_raises_on_int_instance :
    extract_payload (.jobj [("instance", .jint 5)]) = .error () := rfl

/-- C8 (amended): `extract_text` is total and returns `""` whenever no known
text shape matches; on known variants whose consulted fields are strings (or
absent), `extract_payload` returns a best-effort record with empty strings for
whatever is missing, stripping the `"@s.whatsapp.net"`/`"@c.us"` suffixes and
the `"whatsapp:"` prefix from the sender — shown on a full Evolution-style
payload and on a bare `data.from` variant with no text; only non-string leaf
values (see the counterexample) or wholly-unparseable JSON are hard errors. -/
theorem extract_payload_best_effort :
    (∀ v : JVal, noTextShape v = true → extract_text v = .jstr "") ∧
    extract_payload (.jobj [("event", .jstr "messages.upsert"), ("instance", .jstr "inst1"),
        ("data", .jobj [
          ("key", .jobj [("remoteJid", .jstr "5511999999999@s.whatsapp.net"),
                         ("fromMe", .jbool false), ("id", .jstr "m1")]),
          ("message", .jobj [("conversation", .jstr "oi")]),
          ("status", .jstr "MESSAGE")])]) =
      .ok ⟨"inst1", "m1", "5511999999999", "oi", false, false, "messages.upsert", "MESSAGE"⟩ ∧
    extract_payload (.jobj [("instance", .jstr "i"),
        ("data", .jobj [("from", .jstr "whatsapp:123@c.us")])]) =
      .ok ⟨"i", "", "123", "", false, false, "", ""⟩ := by
  refine ⟨?_, rfl, rfl⟩
  intro v h
  cases v with
  | jobj m =>
    unfold noTextShape at h
    simp only [Bool.and_eq_true, Option.isNone_iff_eq_none] at h
    obtain ⟨⟨⟨⟨h1, h2⟩, h3⟩, h4⟩, h5⟩ := h
    unfold extract_text
    dsimp only
    rw [h1, h2, h3, h4, h5]
    rfl
  | jstr s => rfl
  | jint n => rfl
  | jbool b => rfl
  | jnull => rfl
  | jarr l => rfl

/-- Witness for C8 (amended): a message dict with only unknown keys yields the
empty text. -/
theorem extract_payload_best_effort_witness :
    extract_text (.jobj [("reactionMessage", .jobj [("text", .jstr "👍")])]) = .jstr "" :=
  extract_payload_best_effort.1 (.jobj [("reactionMessage", .jobj [("text", .jstr "👍")])])
    (by decide)

-- ---------------------------------------------------------------------------
-- C5: webhook response envelope
-- ---------------------------------------------------------------------------

/-- The reason codes the dispatch core can put into `"ignored"`. -/
theorem webhook_dispatch_resp (env : WebhookEnv)
    (reply_for : String → String → JObj → Except Unit (Option String × JObj))
    (payload : JVal) (store : MemStore) (p : WebhookResp × MemStore)
    (h : webhook_dispatch env reply_for payload store = .ok p) :
    p.1.ok = true ∧ ∀ r, p.1.ignored = some r →
      r ∈ ["missing_instance", "unknown_instance", "update", "ack/status_no_text",
           "from_me/group", "dedup", "missing_number_or_text", "rate_limited"] := by
  simp only [webhook_dispatch] at h
  rcases h1 : pyGetE payload "event" with e | v1 <;> rw [h1] at h
  · rw [error_bind] at h
    exact Except.noConfusion h
  rw [ok_bind] at h
  rcases h2 : pyGetE payload "instance" with e | v2 <;> rw [h2] at h
  · rw [error_bind] at h
    exact Except.noConfusion h
  rw [ok_bind] at h
  rcases h3 : extract_payload payload with e | pp <;> rw [h3] at h
  · rw [error_bind] at h
    exact Except.noConfusion h
  rw [ok_bind] at h
  by_cases hinst : pp.inst = ""
  · rw [if_pos hinst, pure_eq_ok] at h
    injection h with h4
    subst h4
    exact ⟨rfl, fun r hr => by cases Option.some.inj hr; decide⟩
  rw [if_neg hinst] at h
  rcases h4 : env.agents pp.inst with _ | ag <;> rw [h4] at h <;> dsimp only at h
  · rw [pure_eq_ok] at h
    injection h with h5
    subst h5
    exact ⟨rfl, fun r hr => by cases Option.some.inj hr; decide⟩
  by_cases hupd : pyContains pp.event "update" = true
  · rw [if_pos hupd, pure_eq_ok] at h
    injection h with h5
    subst h5
    exact ⟨rfl, fun r hr => by cases Option.some.inj hr; decide⟩
  rw [if_neg hupd] at h
  by_cases hack : (pp.status = "ACK" ∨ pp.status = "READ" ∨ pp.status = "DELIVERED" ∨
      pp.status = "DELIVERED_TO_DEVICE" ∨ pp.status = "SERVER_ACK" ∨
      pp.status = "DELIVERY_ACK") ∧ pp.text = ""
  · rw [if_pos hack, pure_eq_ok] at h
    injection h with h5
    subst h5
    exact ⟨rfl, fun r hr => by cases Option.some.inj hr; decide⟩
  rw [if_neg hack] at h
  by_cases hfm : pp.from_me = true ∨ pp.is_group = true
  · rw [if_pos hfm, pure_eq_ok] at h
    injection h with h5
    subst h5
    exact ⟨rfl, fun r hr => by cases Option.some.inj hr; decide⟩
  rw [if_neg hfm] at h
  by_cases hmid : pp.message_id ≠ ""
  all_goals
    first
    | rw [if_pos hmid] at h
    | rw [if_neg hmid, if_neg (by simp)] at h
  case pos =>
    by_cases hdup : (MemStore.seen store pp.message_id).1 = true
    · rw [if_pos hdup, pure_eq_ok] at h
      injection h with h5
      subst h5
      exact ⟨rfl, fun r hr => by cases Option.some.inj hr; decide⟩
    rw [if_neg hdup] at h
    by_cases hmt : pp.from_number = "" ∨ pp.text = ""
    · rw [if_pos hmt, pure_eq_ok] at h
      injection h with h5
      subst h5
      exact ⟨rfl, fun r hr => by cases Option.some.inj hr; decide⟩
    rw [if_neg hmt] at h
    by_cases hrl : env.rl_allow pp.from_number = false
    · rw [if_pos hrl, pure_eq_ok] at h
      injection h with h5
      subst h5
      exact ⟨rfl, fun r hr => by cases Option.some.inj hr; decide⟩
    rw [if_neg hrl] at h
    by_cases hadm : pyLower (pyStrip pp.text) = "#leads"
    · rw [if_pos hadm, pure_eq_ok] at h
      injection h with h5
      subst h5
      exact ⟨rfl, fun r hr => Option.noConfusion hr⟩
    rw [if_neg hadm] at h
    rcases h9 : reply_for pp.from_number pp.text
        ((MemStore.seen store pp.message_id).2.get_state pp.from_number).1 with e | rs <;>
      rw [h9] at h
    · rw [error_bind] at h
      exact Except.noConfusion h
    rw [ok_bind] at h
    rcases rs with ⟨ro, st2⟩
    rcases ro with _ | s <;> dsimp only at h
    · rw [pure_eq_ok] at h
      injection h with h5
      subst h5
      exact ⟨rfl, fun r hr => Option.noConfusion hr⟩
    · rw [pure_eq_ok] at h
      injection h with h5
      subst h5
      exact ⟨rfl, fun r hr => Option.noConfusion hr⟩
  case neg =>
    by_cases hmt : pp.from_number = "" ∨ pp.text = ""
    · rw [if_pos hmt, pure_eq_ok] at h
      injection h with h5
      subst h5
      exact ⟨rfl, fun r hr => by cases Option.some.inj hr; decide⟩
    rw [if_neg hmt] at h
    by_cases hrl : env.rl_allow pp.from_number = false
    · rw [if_pos hrl, pure_eq_ok] at h
      injection h with h5
      subst h5
      exact ⟨rfl, fun r hr => by cases Option.some.inj hr; decide⟩
    rw [if_neg hrl] at h
    by_cases hadm : pyLower (pyStrip pp.text) = "#leads"
    · rw [if_pos hadm, pure_eq_ok] at h
      injection h with h5
      subst h5
      exact ⟨rfl, fun r hr => Option.noConfusion hr⟩
    rw [if_neg hadm] at h
    rcases h9 : reply_for pp.from_number pp.text
        (store.get_state pp.from_number).1 with e | rs <;> rw [h9] at h
    · rw [error_bind] at h
      exact Except.noConfusion h
    rw [ok_bind] at h
    rcases rs with ⟨ro, st2⟩
    rcases ro with _ | s <;> dsimp only at h
    · rw [pure_eq_ok] at h
      injection h with h5
      subst h5
      exact ⟨rfl, fun r hr => Option.noConfusion hr⟩
    · rw [pure_eq_ok] at h
      injection h with h5
      subst h5
      exact ⟨rfl, fun r hr => Option.noConfusion hr⟩

theorem reason_weaken (r : String)
    (h : r ∈ ["missing_instance", "unknown_instance", "update", "ack/status_no_text",
              "from_me/group", "dedup", "missing_number_or_text", "rate_limited"]) :
    r ∈ ["bad_json", "simulator_disabled", "simulator_unauthorized", "missing_instance",
         "unknown_instance", "update", "ack/status_no_text", "from_me/group", "dedup",
         "missing_number_or_text", "rate_limited"] := by
  simp only [List.mem_cons, List.not_mem_nil, or_false] at h ⊢
  tauto

/-- Counterexample to C5 as stated: a self-sent message is dropped with the
body reason `"from_me/group"`, not the claimed code `"from_me_or_group"` (that
string is only the Prometheus label); so the claimed reason-code list does not
match the HTTP bodies. -/
theorem webhook_from_me_group_reason :
    webhook ⟨false, "", "", (fun i => if i = "inst1" then some ("c1", "a1") else none),
        (fun _ => true), true, true, 0⟩
      (fun _ _ st => .ok (some "x", st))
      (some (.jobj [("event", .jstr "messages.upsert"), ("instance", .jstr "inst1"),
        ("data", .jobj [
          ("key", .jobj [("remoteJid", .jstr "5511999999999@s.whatsapp.net"),
                         ("fromMe", .jbool true), ("id", .jstr "m2")]),
          ("message", .jobj [("conversation", .jstr "oi")]),
          ("status", .jstr "MESSAGE")])]))
      ⟨[], []⟩ =
      .ok (⟨true, some "from_me/group", none, none⟩, ⟨[], []⟩) ∧
    "from_me/group" ≠ "from_me_or_group" :=
  ⟨rfl, by decide⟩

/-- C5 (amended): whenever the webhook handler returns (it can only fail to —
an HTTP 500 — when the body parses to non-object JSON or the rule engine
raises), the JSON body is `{"ok": true, ...}`, and every `"ignored"` reason is
one of `bad_json`, `simulator_disabled`, `simulator_unauthorized`,
`missing_instance`, `unknown_instance`, `update`, `ack/status_no_text`,
`from_me/group`, `dedup`, `missing_number_or_text`, `rate_limited`;
an unparseable body is always answered `{"ok": true, "ignored": "bad_json"}`;
the admin-command case answers `{"ok": true}` with no reason and the paused
case `{"ok": true, "paused": true}` (shown on concrete runs). -/
theorem webhook_always_ok :
    (∀ (env : WebhookEnv)
        (reply_for : String → String → JObj → Except Unit (Option String × JObj))
        (body : Option JVal) (store : MemStore) (p : WebhookResp × MemStore),
      webhook env reply_for body store = .ok p →
      p.1.ok = true ∧ ∀ r, p.1.ignored = some r →
        r ∈ ["bad_json", "simulator_disabled", "simulator_unauthorized", "missing_instance",
             "unknown_instance", "update", "ack/status_no_text", "from_me/group", "dedup",
             "missing_number_or_text", "rate_limited"]) ∧
    (∀ (env : WebhookEnv)
        (reply_for : String → String → JObj → Except Unit (Option String × JObj))
        (store : MemStore),
      webhook env reply_for none store = .ok (⟨true, some "bad_json", none, none⟩, store)) ∧
    webhook ⟨false, "", "", (fun i => if i = "inst1" then some ("c1", "a1") else none),
        (fun _ => true), true, true, 0⟩
      (fun _ _ st => .ok (some "x", st))
      (some (.jobj [("event", .jstr "messages.upsert"), ("instance", .jstr "inst1"),
        ("data", .jobj [
          ("key", .jobj [("remoteJid", .jstr "5511999999999@s.whatsapp.net"),
                         ("fromMe", .jbool false), ("id", .jstr "mA")]),
          ("message", .jobj [("conversation", .jstr "#leads")]),
          ("status", .jstr "MESSAGE")])]))
      ⟨[], []⟩ =
      .ok (⟨true, none, none, none⟩, ⟨["mA"], [("5511999999999", [])]⟩) ∧
    webhook ⟨false, "", "", (fun i => if i = "inst1" then some ("c1", "a1") else none),
        (fun _ => true), true, true, 0⟩
      (fun _ _ st => .ok (none, st))
      (some (.jobj [("event", .jstr "messages.upsert"), ("instance", .jstr "inst1"),
        ("data", .jobj [
          ("key", .jobj [("remoteJid", .jstr "5511999999999@s.whatsapp.net"),
                         ("fromMe", .jbool false), ("id", .jstr "mB")]),
          ("message", .jobj [("conversation", .jstr "oi")]),
          ("status", .jstr "MESSAGE")])]))
      ⟨[], []⟩ =
      .ok (⟨true, none, some true, none⟩, ⟨["mB"], [("5511999999999", [])]⟩) := by
  refine ⟨?_, fun env reply_for store => rfl, rfl, rfl⟩
  intro env reply_for body store p h
  rcases body with _ | payload0
  · simp only [webhook] at h
    rw [pure_eq_ok] at h
    injection h with h1
    subst h1
    exact ⟨rfl, fun r hr => by cases Option.some.inj hr; decide⟩
  simp only [webhook] at h
  by_cases hsim : _is_simulator_payload payload0 = true
  · rw [if_pos hsim] at h
    by_cases hall : env.allow_simulator = false
    · rw [if_pos hall, pure_eq_ok] at h
      injection h with h1
      subst h1
      exact ⟨rfl, fun r hr => by cases Option.some.inj hr; decide⟩
    rw [if_neg hall] at h
    by_cases hkey : env.simulator_key = "" ∨ pyStrip env.sim_header_key ≠ env.simulator_key
    · rw [if_pos hkey, pure_eq_ok] at h
      injection h with h1
      subst h1
      exact ⟨rfl, fun r hr => by cases Option.some.inj hr; decide⟩
    rw [if_neg hkey] at h
    cases payload0 with
    | jobj l =>
      dsimp only at h
      rcases hc : _convert_simulator_to_evolution l env.now_ts with e | pl <;> rw [hc] at h
      · rw [error_bind] at h
        exact Except.noConfusion h
      rw [ok_bind] at h
      obtain ⟨hok, hr⟩ := webhook_dispatch_resp env reply_for pl store p h
      exact ⟨hok, fun r hrr => reason_weaken r (hr r hrr)⟩
    | jstr s => exact Except.noConfusion h
    | jint n => exact Except.noConfusion h
    | jbool b => exact Except.noConfusion h
    | jnull => exact Except.noConfusion h
    | jarr l => exact Except.noConfusion h
  · rw [if_neg hsim] at h
    obtain ⟨hok, hr⟩ := webhook_dispatch_resp env reply_for payload0 store p h
    exact ⟨hok, fun r hrr => reason_weaken r (hr r hrr)⟩

/-- Witness for C5 (amended), applying the envelope property to a concrete
dropped self-sent message. -/
theorem webhook_always_ok_witness :
    (⟨true, some "from_me/group", none, none⟩ : WebhookResp).ok = true ∧
    (∀ r, (⟨true, some "from_me/group", none, none⟩ : WebhookResp).ignored = some r →
      r ∈ ["bad_json", "simulator_disabled", "simulator_unauthorized", "missing_instance",
           "unknown_instance", "update", "ack/status_no_text", "from_me/group", "dedup",
           "missing_number_or_text", "rate_limited"]) :=
  webhook_always_ok.1
    ⟨false, "", "", (fun i => if i = "inst1" then some ("c1", "a1") else none),
     (fun _ => true), true, true, 0⟩
    (fun _ _ st => .ok (some "x", st))
    (some (.jobj [("event", .jstr "messages.upsert"), ("instance", .jstr "inst1"),
      ("data", .jobj [
        ("key", .jobj [("remoteJid", .jstr "5511999999999@s.whatsapp.net"),
                       ("fromMe", .jbool true), ("id", .jstr "m2")]),
        ("message", .jobj [("conversation", .jstr "oi")]),
        ("status", .jstr "MESSAGE")])]))
    ⟨[], []⟩
    (⟨true, some "from_me/group", none, none⟩, ⟨[], []⟩) rfl

end WA
